import Mathlib

/-!
Shallow embedding of the XBattery Battery-Pack-Simulator plant model
(pc_simulator/plant/cell_model.py, pc_simulator/plant/pack_model.py) and
AFE emulation layer (pc_simulator/afe/wrapper.py), together with proofs
about the testable properties of the specification.

Real-valued physics (the cell model uses exponentials and square roots) is
embedded over the real numbers; the AFE measurement pipeline is pure
(field) arithmetic and is embedded over the rationals so that concrete
runs can be evaluated by the kernel.  Python floats are modelled as exact
real/rational arithmetic.
-/

set_option maxHeartbeats 1600000

open scoped BigOperators

/-- Clamp a value into an interval, matching numpy.clip(x, lo, hi):
the result is min (max x lo) hi. -/
def clip {α : Type} [LinearOrder α] (x lo hi : α) : α :=
  min (max x lo) hi

/-- Linear interpolation over a table of (x, y) points with increasing x,
matching numpy.interp: values are clamped to the first/last y outside the
table range, and linearly interpolated between bracketing points inside. -/
noncomputable def interp (x : ℝ) : List (ℝ × ℝ) → ℝ
  | [] => 0
  | [p] => p.2
  | p :: q :: rest =>
    if x ≤ p.1 then p.2
    else if x ≤ q.1 then p.2 + (q.2 - p.2) * (x - p.1) / (q.1 - p.1)
    else interp x (q :: rest)

namespace LiFePO4Cell

/-- Discharge-branch OCV table, (SOC percent, OCV volts), 101 points
(class attribute _OCV_SOC_TABLE_DISCHARGE of LiFePO4Cell). -/
def OCV_SOC_TABLE_DISCHARGE : List (ℝ × ℝ) :=
  [(0, 2.862), (1, 2.912), (2, 2.962), (3, 3.012), (4, 3.062),
   (5, 3.112), (6, 3.124), (7, 3.136), (8, 3.148), (9, 3.160),
   (10, 3.172), (11, 3.183), (12, 3.193), (13, 3.204), (14, 3.215),
   (15, 3.226), (16, 3.236), (17, 3.247), (18, 3.258), (19, 3.268),
   (20, 3.279), (21, 3.280), (22, 3.280), (23, 3.281), (24, 3.281),
   (25, 3.282), (26, 3.283), (27, 3.283), (28, 3.284), (29, 3.284),
   (30, 3.285), (31, 3.286), (32, 3.286), (33, 3.287), (34, 3.287),
   (35, 3.288), (36, 3.289), (37, 3.289), (38, 3.290), (39, 3.290),
   (40, 3.291), (41, 3.292), (42, 3.292), (43, 3.293), (44, 3.293),
   (45, 3.294), (46, 3.295), (47, 3.295), (48, 3.296), (49, 3.296),
   (50, 3.297), (51, 3.298), (52, 3.298), (53, 3.299), (54, 3.299),
   (55, 3.300), (56, 3.300), (57, 3.301), (58, 3.302), (59, 3.302),
   (60, 3.303), (61, 3.303), (62, 3.304), (63, 3.304), (64, 3.305),
   (65, 3.306), (66, 3.306), (67, 3.307), (68, 3.307), (69, 3.308),
   (70, 3.308), (71, 3.309), (72, 3.309), (73, 3.310), (74, 3.311),
   (75, 3.311), (76, 3.312), (77, 3.312), (78, 3.313), (79, 3.313),
   (80, 3.314), (81, 3.316), (82, 3.317), (83, 3.319), (84, 3.320),
   (85, 3.322), (86, 3.323), (87, 3.325), (88, 3.326), (89, 3.328),
   (90, 3.329), (91, 3.343), (92, 3.358), (93, 3.372), (94, 3.386),
   (95, 3.401), (96, 3.415), (97, 3.429), (98, 3.443), (99, 3.458),
   (100, 3.472)]

/-- Charge-branch OCV table, (SOC percent, OCV volts), 101 points
(class attribute _OCV_SOC_TABLE_CHARGE of LiFePO4Cell). -/
def OCV_SOC_TABLE_CHARGE : List (ℝ × ℝ) :=
  [(0, 2.510), (1, 2.560), (2, 2.610), (3, 2.660), (4, 2.710),
   (5, 2.760), (6, 2.810), (7, 2.860), (8, 2.910), (9, 2.960),
   (10, 3.010), (11, 3.060), (12, 3.110), (13, 3.160), (14, 3.190),
   (15, 3.210), (16, 3.220), (17, 3.230), (18, 3.240), (19, 3.250),
   (20, 3.260), (21, 3.260), (22, 3.260), (23, 3.260), (24, 3.260),
   (25, 3.260), (26, 3.260), (27, 3.260), (28, 3.260), (29, 3.260),
   (30, 3.260), (31, 3.260), (32, 3.260), (33, 3.260), (34, 3.260),
   (35, 3.260), (36, 3.260), (37, 3.260), (38, 3.260), (39, 3.260),
   (40, 3.260), (41, 3.260), (42, 3.260), (43, 3.260), (44, 3.260),
   (45, 3.260), (46, 3.260), (47, 3.260), (48, 3.260), (49, 3.260),
   (50, 3.260), (51, 3.260), (52, 3.260), (53, 3.260), (54, 3.260),
   (55, 3.260), (56, 3.260), (57, 3.260), (58, 3.260), (59, 3.260),
   (60, 3.260), (61, 3.260), (62, 3.260), (63, 3.260), (64, 3.260),
   (65, 3.260), (66, 3.260), (67, 3.260), (68, 3.260), (69, 3.260),
   (70, 3.260), (71, 3.260), (72, 3.260), (73, 3.260), (74, 3.260),
   (75, 3.260), (76, 3.260), (77, 3.260), (78, 3.260), (79, 3.260),
   (80, 3.260), (81, 3.265), (82, 3.270), (83, 3.275), (84, 3.280),
   (85, 3.285), (86, 3.290), (87, 3.300), (88, 3.310), (89, 3.320),
   (90, 3.330), (91, 3.340), (92, 3.350), (93, 3.360), (94, 3.370),
   (95, 3.380), (96, 3.385), (97, 3.390), (98, 3.395), (99, 3.398),
   (100, 3.472)]

/-- The SOC/OCV discharge pairs with SOC converted from percent to a
fraction, as produced in LiFePO4Cell.__init__ (self._soc_table together
with self._ocv_table_discharge). -/
noncomputable def dischargePairs : List (ℝ × ℝ) :=
  OCV_SOC_TABLE_DISCHARGE.map (fun p => (p.1 / 100, p.2))

/-- The SOC/OCV charge pairs with SOC converted from percent to a
fraction (self._soc_table together with self._ocv_table_charge). -/
noncomputable def chargePairs : List (ℝ × ℝ) :=
  OCV_SOC_TABLE_CHARGE.map (fun p => (p.1 / 100, p.2))

/-- Fast transient resistance R1 = 1 mOhm (in Ohm). -/
def R1 : ℝ := 1e-3
/-- Fast transient capacitance C1 = 2000 F. -/
def C1 : ℝ := 2000.0
/-- Slow transient resistance R2 = 0.5 mOhm (in Ohm). -/
def R2 : ℝ := 0.5e-3
/-- Slow transient capacitance C2 = 10000 F. -/
def C2 : ℝ := 10000.0
/-- OCV temperature coefficient: -0.5 mV per degree C. -/
def OCV_TEMP_COEFF : ℝ := -0.5e-3
/-- Capacity temperature coefficient: +0.5 percent per degree C. -/
def CAPACITY_TEMP_COEFF : ℝ := 0.005
/-- Capacity fade rate per cycle. -/
def FADE_RATE : ℝ := 0.0001
/-- Resistance increase rate per cycle. -/
def RESISTANCE_INCREASE_RATE : ℝ := 0.001
/-- Activation energy (J/mol) for the calendar-aging Arrhenius equation. -/
def CALENDAR_AGING_ACTIVATION_ENERGY : ℝ := 30000.0
/-- Gas constant (J/(mol K)). -/
def GAS_CONSTANT : ℝ := 8.314
/-- Base calendar aging rate (per hour at 25 C, 50 percent SOC). -/
def CALENDAR_AGING_BASE_RATE : ℝ := 1.0e-9
/-- Thermal mass (J per degree C). -/
def THERMAL_MASS : ℝ := 100.0
/-- Thermal resistance to ambient (degree C per W). -/
def THERMAL_RESISTANCE : ℝ := 2.0

/-- State of one LiFePO4Cell instance: the mutable attributes set in
LiFePO4Cell.__init__ (leading underscores dropped; _storage_temp is
storage_temp, etc.).  Integer attributes (cycles, direction) are ℤ. -/
structure CellState where
  capacity_nominal_ah : ℝ
  soc : ℝ
  temperature_c : ℝ
  ambient_temp_c : ℝ
  cycles : ℤ
  base_resistance_multiplier : ℝ
  v_rc1 : ℝ
  v_rc2 : ℝ
  last_current_direction : ℤ
  hysteresis_soc : ℝ
  calendar_aging_time_hours : ℝ
  last_update_time_hours : ℝ
  storage_soc : ℝ
  storage_temp : ℝ
  capacity_actual_ah : ℝ
  resistance_multiplier : ℝ

/-- LiFePO4Cell._update_aging: recompute capacity_actual_ah and
resistance_multiplier from the cycle count and calendar-aging state.
Python's x ** 0.5 on a nonnegative float is the square root, modelled by
Real.sqrt (the code only applies it to storage SOC values in [0, 1]). -/
noncomputable def update_aging (s : CellState) : CellState :=
  let cycle_fade_factor := max (1 - FADE_RATE * Real.sqrt ((max s.cycles 0 : ℤ) : ℝ)) 0.5
  let calendar_fade_factor :=
    if s.calendar_aging_time_hours > 0 then
      let temp_kelvin := s.storage_temp + 273.15
      let arrhenius_factor :=
        Real.exp (-CALENDAR_AGING_ACTIVATION_ENERGY / (GAS_CONSTANT * temp_kelvin))
      let soc_factor :=
        (Real.sqrt s.storage_soc + Real.sqrt (1 - s.storage_soc)) / 2
      let calendar_aging_rate := CALENDAR_AGING_BASE_RATE * arrhenius_factor * soc_factor
      let calendar_fade := calendar_aging_rate * s.calendar_aging_time_hours
      1 - min calendar_fade 0.3
    else 1
  let total_fade_factor := max (cycle_fade_factor * calendar_fade_factor) 0.5
  { s with
    capacity_actual_ah := s.capacity_nominal_ah * total_fade_factor
    resistance_multiplier :=
      1 + RESISTANCE_INCREASE_RATE * ((max s.cycles 0 : ℤ) : ℝ) }

/-- LiFePO4Cell.__init__: construct a cell.  The SOC is clamped to [0,1],
the resistance multiplier floored at 0.1, RC voltages start at 0 and
_update_aging fills in the derived capacity and resistance fields
(their pre-aging values are irrelevant and set to 0). -/
noncomputable def init (capacity_ah initial_soc temperature_c : ℝ) (cycles : ℤ)
    (ambient_temp_c resistance_multiplier : ℝ) : CellState :=
  update_aging
    { capacity_nominal_ah := capacity_ah
      soc := clip initial_soc 0 1
      temperature_c := temperature_c
      ambient_temp_c := ambient_temp_c
      cycles := cycles
      base_resistance_multiplier := max resistance_multiplier 0.1
      v_rc1 := 0
      v_rc2 := 0
      last_current_direction := 0
      hysteresis_soc := initial_soc
      calendar_aging_time_hours := 0
      last_update_time_hours := 0
      storage_soc := initial_soc
      storage_temp := temperature_c
      capacity_actual_ah := 0
      resistance_multiplier := 0 }

/-- LiFePO4Cell.get_ocv: open-circuit voltage with hysteresis.  Optional
arguments default to the cell's stored SOC / temperature / last known
current direction, exactly as in the source. -/
noncomputable def get_ocv (s : CellState) (soc_pct : Option ℝ)
    (temperature_c : Option ℝ) (current_direction : Option ℤ) : ℝ :=
  let soc := match soc_pct with
    | none => s.soc
    | some p => clip (p / 100) 0 1
  let temp := temperature_c.getD s.temperature_c
  let dir := current_direction.getD s.last_current_direction
  if dir > 0 then
    interp soc chargePairs + OCV_TEMP_COEFF * (temp - 25)
  else if dir < 0 then
    interp soc dischargePairs + OCV_TEMP_COEFF * (temp - 25)
  else if s.last_current_direction > 0 then
    interp soc chargePairs + OCV_TEMP_COEFF * (temp - 25)
  else if s.last_current_direction < 0 then
    interp soc dischargePairs + OCV_TEMP_COEFF * (temp - 25)
  else
    (interp soc chargePairs + interp soc dischargePairs) / 2
      + OCV_TEMP_COEFF * (temp - 25)

/-- LiFePO4Cell.get_internal_resistance: internal resistance R0 in mOhm as
a function of SOC and temperature, times the manufacturing-variation and
aging multipliers. -/
noncomputable def get_internal_resistance (s : CellState) (soc_pct : Option ℝ)
    (temperature_c : Option ℝ) : ℝ :=
  let soc := match soc_pct with
    | none => s.soc
    | some p => clip (p / 100) 0 1
  let temp := temperature_c.getD s.temperature_c
  let r0_base_multiplier :=
    if soc ≤ 0.5 then 1.4 - soc * 0.8 else 1 - (soc - 0.5) * 0.5
  let r0_base_mohm := 0.5 * r0_base_multiplier
  let temp_factor := max (1 - 0.005 * (temp - 25)) 0.5
  r0_base_mohm * temp_factor * s.base_resistance_multiplier * s.resistance_multiplier

/-- LiFePO4Cell._update_thermal_model: self-heating and heat exchange with
ambient; resulting temperature clamped to [-40, 85] degrees C. -/
noncomputable def update_thermal_model (s : CellState) (current_ma dt_ms : ℝ)
    (ambient_temp_c : Option ℝ) : CellState :=
  let s := match ambient_temp_c with
    | some a => { s with ambient_temp_c := a }
    | none => s
  let current_a := current_ma / 1000
  let r0_ohm := get_internal_resistance s none none / 1000
  let power_w := current_a ^ 2 * r0_ohm
  let heat_transfer_w := (s.temperature_c - s.ambient_temp_c) / THERMAL_RESISTANCE
  let net_power_w := power_w - heat_transfer_w
  let dtemp := net_power_w * (dt_ms / 1000) / THERMAL_MASS
  { s with temperature_c := clip (s.temperature_c + dtemp) (-40) 85 }

/-- LiFePO4Cell.update: one simulation step.  Returns the new cell state
together with the pair (terminal voltage in mV, SOC in percent) returned
by the Python method.  Mutation order follows the source: thermal update
(skipped when a forced temperature is supplied), coulomb counting with
clamping, direction classification, RC-network update, terminal-voltage
computation with the 2.5 V floor, then calendar-aging bookkeeping. -/
noncomputable def update (s : CellState) (current_ma dt_ms : ℝ)
    (temperature_c ambient_temp_c : Option ℝ) : CellState × ℝ × ℝ :=
  let s1 := match temperature_c with
    | none => update_thermal_model s current_ma dt_ms ambient_temp_c
    | some t => { s with temperature_c := t }
  let temp_capacity_factor := 1 + CAPACITY_TEMP_COEFF * (s1.temperature_c - 25)
  let capacity_ah := s1.capacity_actual_ah * temp_capacity_factor
  let current_a := current_ma / 1000
  let dt_hours := dt_ms / (1000 * 3600)
  let dsoc := current_a * dt_hours / capacity_ah
  let soc2 := clip (s1.soc + dsoc) 0 1
  let new_direction : ℤ :=
    if current_ma > 0.001 then 1 else if current_ma < -0.001 then -1 else 0
  let hyst :=
    if new_direction ≠ 0 ∧ new_direction ≠ s1.last_current_direction then soc2
    else s1.hysteresis_soc
  let lastdir :=
    if new_direction ≠ 0 then new_direction else s1.last_current_direction
  let current_c_rate :=
    if s1.capacity_nominal_ah > 0 then |current_a| / s1.capacity_nominal_ah else 0
  let rc_scale_factor :=
    if current_c_rate ≤ 1 then 1
    else max (1 / (1 + 0.15 * (current_c_rate - 1))) 0.3
  let r1_effective := R1 * rc_scale_factor
  let r2_effective := R2 * rc_scale_factor
  let dt_sec := dt_ms / 1000
  let tau1 := r1_effective * C1
  let exp_factor1 := if tau1 > 0 then Real.exp (-dt_sec / tau1) else 0
  let v_rc1' := s1.v_rc1 * exp_factor1 + current_a * r1_effective * (1 - exp_factor1)
  let tau2 := r2_effective * C2
  let exp_factor2 := if tau2 > 0 then Real.exp (-dt_sec / tau2) else 0
  let v_rc2' := s1.v_rc2 * exp_factor2 + current_a * r2_effective * (1 - exp_factor2)
  let s2 := { s1 with
    soc := soc2
    hysteresis_soc := hyst
    last_current_direction := lastdir
    v_rc1 := v_rc1'
    v_rc2 := v_rc2' }
  let ocv := get_ocv s2 none none (some new_direction)
  let r0_ohm := get_internal_resistance s2 none none / 1000
  let v_terminal := max (ocv - |current_a| * r0_ohm - |v_rc1'| - |v_rc2'|) 2.5
  let current_time_hours := s2.calendar_aging_time_hours + dt_ms / (1000 * 3600)
  let s3 := { s2 with
    storage_soc := if |current_ma| < 0.001 then soc2 else s2.storage_soc
    storage_temp := s2.temperature_c
    calendar_aging_time_hours := current_time_hours }
  let s4 :=
    if current_time_hours - s3.last_update_time_hours > 1 then
      { update_aging s3 with last_update_time_hours := current_time_hours }
    else s3
  (s4, v_terminal * 1000, soc2 * 100)

/-- LiFePO4Cell.set_aging: force-set the aging inputs (cycles floored at
0, calendar hours floored at 0 when supplied) and recompute the derived
capacity and resistance via _update_aging. -/
noncomputable def set_aging (s : CellState) (cycles : ℤ)
    (calendar_aging_hours : Option ℝ) : CellState :=
  update_aging
    { s with
      cycles := max cycles 0
      calendar_aging_time_hours :=
        match calendar_aging_hours with
        | some h => max h 0
        | none => s.calendar_aging_time_hours }

/-- The voltage_mv entry of LiFePO4Cell.get_state: the open-circuit
voltage at the current state, in millivolts (not the terminal voltage). -/
noncomputable def get_state_voltage_mv (s : CellState) : ℝ :=
  get_ocv s none none none * 1000

end LiFePO4Cell

namespace BatteryPack16S

/-- State of one BatteryPack16S instance: 16 owned cells, the per-cell
fault-override arrays (_fault_voltages / _fault_temperatures, None or a
forced value), and the pack-level attributes used by the accessors. -/
structure PackState where
  cells : Fin 16 → LiFePO4Cell.CellState
  fault_voltages : Fin 16 → Option ℝ
  fault_temperatures : Fin 16 → Option ℝ
  pack_current_ma : ℝ
  ambient_temp_c : ℝ
  thermal_coupling_coeff : ℝ

/-- BatteryPack16S.get_cell_voltages, one channel: the fault-override
value when one is set, otherwise the voltage_mv entry of the cell's
get_state() (its open-circuit voltage in mV). -/
noncomputable def get_cell_voltages (p : PackState) (i : Fin 16) : ℝ :=
  match p.fault_voltages i with
  | some v => v
  | none => LiFePO4Cell.get_state_voltage_mv (p.cells i)

/-- BatteryPack16S.get_pack_voltage: the sum of the 16 (possibly
overridden) cell voltages. -/
noncomputable def get_pack_voltage (p : PackState) : ℝ :=
  ∑ i : Fin 16, get_cell_voltages p i

/-- BatteryPack16S.set_cell_voltage: set or clear a voltage override; an
out-of-range index raises ValueError.  Indices are modelled as ℤ so the
bound check is meaningful. -/
noncomputable def set_cell_voltage (p : PackState) (cell_index : ℤ)
    (voltage_mv : Option ℝ) : Except String PackState :=
  if h : 0 ≤ cell_index ∧ cell_index < 16 then
    .ok { p with fault_voltages :=
      Function.update p.fault_voltages ⟨cell_index.toNat, by omega⟩ voltage_mv }
  else .error "Cell index must be 0-15"

end BatteryPack16S

namespace AFEWrapper

/-- FaultType enum of the AFE wrapper.  The runtime string-to-enum
coercion of the Python source is outside this model: the embedding works
with the closed enum directly. -/
inductive FaultType
  | open_wire
  | stuck_adc
  | ntc_open
  | ntc_short
  | current_sensor_fault
  | crc_error
deriving DecidableEq

/-- One entry of the _fault_schedule list.  The Python code stores dicts
whose keys may be absent; absent optional keys are modelled as none, and
the 'injected' key (looked up with .get('injected', False)) as a Bool
that is false when the key is absent. -/
structure Event where
  fault_type : FaultType
  cell_mask : Option ℕ
  inject_time_ms : Option ℚ
  duration_ms : Option ℚ
  clear_time_ms : Option ℚ
  injected : Bool
deriving DecidableEq

/-- Voltage ADC resolution: 0.1 mV. -/
def VOLTAGE_RESOLUTION_MV : ℚ := 0.1
/-- Temperature ADC resolution: 0.1 degree C. -/
def TEMPERATURE_RESOLUTION_C : ℚ := 0.1
/-- Current ADC resolution: 1 mA. -/
def CURRENT_RESOLUTION_MA : ℚ := 1.0
/-- Open-wire sentinel voltage: 0 mV. -/
def INVALID_VOLTAGE_MV : ℚ := 0.0
/-- NTC-fault sentinel: -32768 (int16 invalid), in centi-degrees C. -/
def INVALID_TEMP_C : ℚ := -32768
/-- Current-sensor fault sentinel: 0 mA. -/
def INVALID_CURRENT_MA : ℚ := 0.0

/-- State of one AFEWrapper instance: fixed per-channel calibration, the
noise standard deviations, the fault-injection state, schedule and
statistics (leading underscores dropped). -/
structure AFEState where
  voltage_gain_errors : Fin 16 → ℚ
  voltage_offsets_mv : Fin 16 → ℚ
  temp_offsets_c : Fin 16 → ℚ
  current_gain_error : ℚ
  current_offset_ma : ℚ
  voltage_noise_mv : ℚ
  temp_noise_c : ℚ
  current_noise_ma : ℚ
  open_wire_mask : ℕ
  stuck_adc_mask : ℕ
  stuck_adc_values : Fin 16 → ℚ
  ntc_fault_mask : ℕ
  current_sensor_fault : Bool
  crc_error_rate : ℚ
  fault_schedule : List Event
  start_time_ms : Option ℚ
  status_flags : ℕ
  measurement_count : ℕ
  crc_error_count : ℕ

/-- Round to the nearest integer with ties to even, matching numpy.round
and Python's built-in round. -/
def roundHalfEven (x : ℚ) : ℤ :=
  let n := ⌊x⌋
  let r := x - n
  if r < 1 / 2 then n
  else if 1 / 2 < r then n + 1
  else if n % 2 = 0 then n else n + 1

/-- Truncation toward zero, as in float-to-integer conversion. -/
def truncQ (x : ℚ) : ℤ :=
  if 0 ≤ x then ⌊x⌋ else ⌈x⌉

/-- Wrap an integer into int16 range, matching numpy astype(np.int16)
two's-complement wrapping. -/
def toInt16 (n : ℤ) : ℤ :=
  (n + 32768) % 65536 - 32768

/-- AFEWrapper.set_crc_error_rate: reject rates outside [0, 1] with an
InvalidArgument-style error, otherwise store the rate. -/
def set_crc_error_rate (s : AFEState) (error_rate : ℚ) : Except String AFEState :=
  if 0 ≤ error_rate ∧ error_rate ≤ 1 then
    .ok { s with crc_error_rate := error_rate }
  else .error "CRC error rate must be between 0.0 and 1.0"

/-- The mask/flag mutation performed by AFEWrapper.inject_fault for each
fault type; per-cell kinds fail when no cell_mask is supplied. -/
def apply_fault_masks (s : AFEState) (fault_type : FaultType)
    (cell_mask : Option ℕ) : Except String AFEState :=
  match fault_type with
  | .open_wire =>
    match cell_mask with
    | none => .error "cell_mask required for open_wire fault"
    | some m => .ok { s with open_wire_mask := s.open_wire_mask ||| m }
  | .stuck_adc =>
    match cell_mask with
    | none => .error "cell_mask required for stuck_adc fault"
    | some m => .ok { s with stuck_adc_mask := s.stuck_adc_mask ||| m }
  | .ntc_open | .ntc_short =>
    match cell_mask with
    | none => .error "cell_mask required for NTC fault"
    | some m => .ok { s with ntc_fault_mask := s.ntc_fault_mask ||| m }
  | .current_sensor_fault => .ok { s with current_sensor_fault := true }
  | .crc_error => .ok s

/-- The pending clear entry appended by AFEWrapper.inject_fault when a
duration is given: a dict holding only fault_type, cell_mask and
clear_time_ms = now + duration. -/
def clear_event (fault_type : FaultType) (cell_mask : Option ℕ)
    (now_ms duration_ms : ℚ) : Event :=
  { fault_type := fault_type
    cell_mask := cell_mask
    inject_time_ms := none
    duration_ms := none
    clear_time_ms := some (now_ms + duration_ms)
    injected := false }

/-- AFEWrapper.inject_fault: set the relevant fault mask/flag, and when a
duration is supplied append a pending clear event stamped with the
current time (now_ms stands for the wall-clock _get_current_time_ms()). -/
def inject_fault (s : AFEState) (fault_type : FaultType) (cell_mask : Option ℕ)
    (duration_ms : Option ℚ) (now_ms : ℚ) : Except String AFEState :=
  match apply_fault_masks s fault_type cell_mask with
  | .error msg => .error msg
  | .ok s' =>
    match duration_ms with
    | none => .ok s'
    | some d =>
      .ok { s' with fault_schedule :=
        s'.fault_schedule ++ [clear_event fault_type cell_mask now_ms d] }

/-- AFEWrapper.clear_fault: clear bits of the relevant mask (the whole
mask when cell_mask is none); the crc_error kind has no branch in the
source and is a no-op. -/
def clear_fault (s : AFEState) (fault_type : FaultType)
    (cell_mask : Option ℕ) : AFEState :=
  match fault_type with
  | .open_wire =>
    match cell_mask with
    | none => { s with open_wire_mask := 0 }
    | some m => { s with open_wire_mask := Nat.ldiff s.open_wire_mask m }
  | .stuck_adc =>
    match cell_mask with
    | none => { s with stuck_adc_mask := 0 }
    | some m => { s with stuck_adc_mask := Nat.ldiff s.stuck_adc_mask m }
  | .ntc_open | .ntc_short =>
    match cell_mask with
    | none => { s with ntc_fault_mask := 0 }
    | some m => { s with ntc_fault_mask := Nat.ldiff s.ntc_fault_mask m }
  | .current_sensor_fault => { s with current_sensor_fault := false }
  | .crc_error => s

/-- AFEWrapper.schedule_fault: append a pending inject event. -/
def schedule_fault (s : AFEState) (fault_type : FaultType)
    (inject_time_ms : ℚ) (cell_mask : Option ℕ)
    (duration_ms : Option ℚ) : AFEState :=
  { s with fault_schedule := s.fault_schedule ++
      [{ fault_type := fault_type
         cell_mask := cell_mask
         inject_time_ms := some inject_time_ms
         duration_ms := duration_ms
         clear_time_ms := none
         injected := false }] }

/-- The clear_time_ms check applied to one event inside
_update_fault_schedule: clear the fault and drop the event when its clear
time has passed, otherwise keep the event. -/
def process_clear (now : ℚ) (s : AFEState) (e : Event) : AFEState × Option Event :=
  match e.clear_time_ms with
  | some ct => if ct ≤ now then (clear_fault s e.fault_type e.cell_mask, none) else (s, some e)
  | none => (s, some e)

/-- Termination measure for the schedule loop: pending events plus the
number of uninjected inject entries (each injection may append at most
one clear entry to the live list being iterated). -/
def eventMeasure (q : List Event) : ℕ :=
  q.length + (q.filter (fun e => e.inject_time_ms.isSome && !e.injected)).length

/-- The loop body of AFEWrapper._update_fault_schedule.  Python iterates
over the live self._fault_schedule list while inject_fault may append
clear entries to it, then replaces the list with the surviving entries;
this is modelled as a queue (with appends at the tail) and an accumulator
of surviving entries. -/
def process_schedule (now : ℚ) (s : AFEState) (queue acc : List Event) :
    Except String (AFEState × List Event) :=
  match queue with
  | [] => .ok (s, acc.reverse)
  | e :: rest =>
    if h : e.inject_time_ms.isSome = true ∧ e.injected = false ∧
        e.inject_time_ms.getD 0 ≤ now then
      match apply_fault_masks s e.fault_type e.cell_mask with
      | .error msg => .error msg
      | .ok s' =>
        match e.duration_ms with
        | none => process_schedule now s' rest acc
        | some d =>
          let rest' := rest ++ [clear_event e.fault_type e.cell_mask now d]
          match process_clear now s' { e with injected := true } with
          | (s'', none) => process_schedule now s'' rest' acc
          | (s'', some e') => process_schedule now s'' rest' (e' :: acc)
    else
      match process_clear now s e with
      | (s', none) => process_schedule now s' rest acc
      | (s', some e') => process_schedule now s' rest (e' :: acc)
termination_by eventMeasure queue
decreasing_by
  all_goals
    simp only [eventMeasure, clear_event, List.filter_append, List.filter_cons,
      List.filter_nil, List.length_append, List.length_cons, List.length_nil]
  all_goals
    rcases hb : (e.inject_time_ms.isSome && !e.injected) with _ | _ <;>
      first
      | (simp [hb] <;> omega)
      | simp [h.1, h.2.1] at hb

/-- AFEWrapper._update_fault_schedule: run the schedule loop against the
current (wall-clock) time and store the surviving entries. -/
def update_fault_schedule (s : AFEState) (now_ms : ℚ) : Except String AFEState :=
  match process_schedule now_ms s s.fault_schedule [] with
  | .error m => .error m
  | .ok (s', remaining) => .ok { s' with fault_schedule := remaining }

/-- One channel's voltage-resolution quantization:
round(x / 0.1) * 0.1 (banker's rounding, as numpy.round). -/
def quantizeV (x : ℚ) : ℚ :=
  (roundHalfEven (x / VOLTAGE_RESOLUTION_MV) : ℚ) * VOLTAGE_RESOLUTION_MV

/-- AFEWrapper._process_voltages: calibration, additive noise (the random
draws are explicit inputs), per-cell open-wire/stuck-ADC faults,
quantization to the 0.1 mV grid and clipping to [0, 6553.5] mV.  Returns
the measured voltages and the updated stuck-ADC stored values. -/
def process_voltages (s : AFEState) (true_voltages noise : Fin 16 → ℚ) :
    (Fin 16 → ℚ) × (Fin 16 → ℚ) :=
  let raw := fun i =>
    true_voltages i * s.voltage_gain_errors i + s.voltage_offsets_mv i + noise i
  let afterFault : Fin 16 → ℚ × ℚ := fun i =>
    if s.open_wire_mask.testBit i then (INVALID_VOLTAGE_MV, s.stuck_adc_values i)
    else if s.stuck_adc_mask.testBit i then
      if s.stuck_adc_values i = 0 then (raw i, raw i)
      else (s.stuck_adc_values i, s.stuck_adc_values i)
    else (raw i, raw i)
  (fun i => clip (quantizeV (afterFault i).1) 0 6553.5, fun i => (afterFault i).2)

/-- AFEWrapper._process_temperatures: offset calibration, additive noise,
NTC-fault sentinel, quantization to the 0.1 degree grid, then conversion
to centi-degrees C as a wrapped 16-bit signed integer. -/
def process_temperatures (s : AFEState) (true_temps noise : Fin 16 → ℚ) :
    Fin 16 → ℤ :=
  fun i =>
    let t := true_temps i + s.temp_offsets_c i + noise i
    let t := if s.ntc_fault_mask.testBit i then INVALID_TEMP_C / 100 else t
    let tq := (roundHalfEven (t / TEMPERATURE_RESOLUTION_C) : ℚ) * TEMPERATURE_RESOLUTION_C
    toInt16 (truncQ (tq * 100))

/-- AFEWrapper._process_current: gain/offset calibration, additive noise,
current-sensor-fault sentinel, quantization to the 1 mA grid. -/
def process_current (s : AFEState) (true_current noise : ℚ) : ℚ :=
  let c := true_current * s.current_gain_error + s.current_offset_ma + noise
  let c := if s.current_sensor_fault then INVALID_CURRENT_MA else c
  (roundHalfEven (c / CURRENT_RESOLUTION_MA) : ℚ) * CURRENT_RESOLUTION_MA

/-- AFEWrapper._update_status_flags: rebuild the 32-bit status word from
scratch: or in the open-wire mask, set bit i for measured voltages equal
to the open-wire sentinel, bit 16+i for measured temperatures at or below
-32000 centi-degrees, and bit 30 for a current-sensor fault or a measured
current equal to its sentinel.  Bit 31 is set by apply_measurement. -/
def update_status_flags (s : AFEState) (voltages : Fin 16 → ℚ)
    (temps : Fin 16 → ℤ) (current : ℚ) : AFEState :=
  let f1 := 0 ||| s.open_wire_mask
  let f2 := (List.finRange 16).foldl
    (fun acc i => if voltages i = INVALID_VOLTAGE_MV then acc ||| (1 <<< (i : ℕ)) else acc) f1
  let f3 := (List.finRange 16).foldl
    (fun acc i => if temps i ≤ -32000 then acc ||| (1 <<< (16 + (i : ℕ))) else acc) f2
  let f4 := if s.current_sensor_fault = true ∨ current = INVALID_CURRENT_MA then
      f3 ||| (1 <<< 30)
    else f3
  { s with status_flags := f4 }

/-- AFEWrapper._should_inject_crc_error: false when the rate is
nonpositive, otherwise compare the uniform random draw (an explicit
input) against the rate. -/
def should_inject_crc_error (s : AFEState) (crc_rand : ℚ) : Bool :=
  if s.crc_error_rate ≤ 0 then false else decide (crc_rand < s.crc_error_rate)

/-- The tuple returned by AFEWrapper.apply_measurement together with the
post-call wrapper state. -/
structure MeasureResult where
  state : AFEState
  measured_voltages : Fin 16 → ℚ
  measured_temps : Fin 16 → ℤ
  measured_current : ℚ
  status : ℕ

/-- AFEWrapper.apply_measurement: count the measurement, advance the
fault schedule (now_ms stands for the wall-clock time sampled by
_get_current_time_ms), process voltages/temperatures/current, rebuild the
status flags and possibly inject a CRC error into bit 31.  The Gaussian
noise draws and the CRC uniform draw are explicit inputs. -/
def apply_measurement (s : AFEState) (true_voltages true_temps : Fin 16 → ℚ)
    (true_current : ℚ) (voltage_noise temp_noise : Fin 16 → ℚ)
    (current_noise crc_rand now_ms : ℚ) : Except String MeasureResult :=
  let s0 := { s with measurement_count := s.measurement_count + 1 }
  match update_fault_schedule s0 now_ms with
  | .error m => .error m
  | .ok s1 =>
    let pv := process_voltages s1 true_voltages voltage_noise
    let s2 := { s1 with stuck_adc_values := pv.2 }
    let mt := process_temperatures s2 true_temps temp_noise
    let mi := process_current s2 true_current current_noise
    let s3 := update_status_flags s2 pv.1 mt mi
    let s4 :=
      if should_inject_crc_error s3 crc_rand then
        { s3 with
          crc_error_count := s3.crc_error_count + 1
          status_flags := s3.status_flags ||| (1 <<< 31) }
      else s3
    .ok ⟨s4, pv.1, mt, mi, s4.status_flags⟩

/-- AFEWrapper.reset: clear all dynamic fault, schedule and statistics
state; the fixed calibration and noise configuration fields are left
untouched. -/
def reset (s : AFEState) : AFEState :=
  { s with
    open_wire_mask := 0
    stuck_adc_mask := 0
    stuck_adc_values := fun _ => 0
    ntc_fault_mask := 0
    current_sensor_fault := false
    crc_error_rate := 0
    fault_schedule := []
    status_flags := 0
    measurement_count := 0
    crc_error_count := 0
    start_time_ms := none }

end AFEWrapper

namespace AFEWrapper

/-- The measurement pipeline of AFEWrapper.apply_measurement after the
fault-schedule step.  When the schedule is empty, apply_measurement
returns exactly this result (proved in
apply_measurement_eq_of_schedule_nil below). -/
def measure_noschedule (s : AFEState) (true_voltages true_temps : Fin 16 → ℚ)
    (true_current : ℚ) (voltage_noise temp_noise : Fin 16 → ℚ)
    (current_noise crc_rand : ℚ) : MeasureResult :=
  let s0 := { s with measurement_count := s.measurement_count + 1 }
  let pv := process_voltages s0 true_voltages voltage_noise
  let s2 := { s0 with stuck_adc_values := pv.2 }
  let mt := process_temperatures s2 true_temps temp_noise
  let mi := process_current s2 true_current current_noise
  let s3 := update_status_flags s2 pv.1 mt mi
  let s4 :=
    if should_inject_crc_error s3 crc_rand then
      { s3 with
        crc_error_count := s3.crc_error_count + 1
        status_flags := s3.status_flags ||| (1 <<< 31) }
    else s3
  ⟨s4, pv.1, mt, mi, s4.status_flags⟩

/-- An AFE wrapper state with identity calibration, no noise intent, no
faults and an empty schedule, used to instantiate theorems at a concrete
input. -/
def sampleAFE : AFEState :=
  { voltage_gain_errors := fun _ => 1
    voltage_offsets_mv := fun _ => 0
    temp_offsets_c := fun _ => 0
    current_gain_error := 1
    current_offset_ma := 0
    voltage_noise_mv := 2
    temp_noise_c := 1 / 2
    current_noise_ma := 50
    open_wire_mask := 0
    stuck_adc_mask := 0
    stuck_adc_values := fun _ => 0
    ntc_fault_mask := 0
    current_sensor_fault := false
    crc_error_rate := 0
    fault_schedule := []
    start_time_ms := none
    status_flags := 0
    measurement_count := 0
    crc_error_count := 0 }

/-- The sample wrapper with an active current-sensor fault. -/
def sampleAFEcs : AFEState :=
  { sampleAFE with current_sensor_fault := true }

/-- Concrete true-voltage input: every cell at 3300 mV. -/
def tv0 : Fin 16 → ℚ := fun _ => 3300
/-- Concrete true-temperature input: every cell at 25 degrees C. -/
def tt0 : Fin 16 → ℚ := fun _ => 25
/-- The all-zero noise vector. -/
def z16 : Fin 16 → ℚ := fun _ => 0

end AFEWrapper

/-- A concrete default cell: LiFePO4Cell(capacity 100 Ah, SOC 0.5,
25 degrees, 0 cycles, ambient 25, resistance multiplier 1), used to
instantiate cell-model theorems. -/
noncomputable def sampleCell : LiFePO4Cell.CellState :=
  LiFePO4Cell.init 100 0.5 25 0 25 1

/-- A concrete fully discharged default cell (SOC 0). -/
noncomputable def dischargedCell : LiFePO4Cell.CellState :=
  LiFePO4Cell.init 100 0 25 0 25 1

/-- A concrete pack whose 16 cells are all equal to sampleCell with no
fault overrides. -/
noncomputable def samplePack : BatteryPack16S.PackState :=
  { cells := fun _ => sampleCell
    fault_voltages := fun _ => none
    fault_temperatures := fun _ => none
    pack_current_ma := 0
    ambient_temp_c := 25
    thermal_coupling_coeff := 0.1 }

/-- Invariant for the SOC-clamp scenario of the specification: a default
cell (nominal 100 Ah, unit multipliers, zero cycles, 25 degree ambient)
that is fully discharged, with its temperature inside [25, 85] and its
aged capacity inside [50, 100] Ah.  It holds for the freshly constructed
discharged cell and is preserved by every large-discharge update step. -/
def C1Inv (s : LiFePO4Cell.CellState) : Prop :=
  s.capacity_nominal_ah = 100 ∧ s.soc = 0 ∧
  25 ≤ s.temperature_c ∧ s.temperature_c ≤ 85 ∧
  s.ambient_temp_c = 25 ∧ s.cycles = 0 ∧
  s.base_resistance_multiplier = 1 ∧ s.resistance_multiplier = 1 ∧
  50 ≤ s.capacity_actual_ah ∧ s.capacity_actual_ah ≤ 100 ∧
  0 ≤ s.storage_soc ∧ s.storage_soc ≤ 1

section HelperLemmas

/-- Lower bound of clip: the clamped value is at least the lower bound
when the interval is nonempty. -/
theorem le_clip {x lo hi : ℝ} (h : lo ≤ hi) : lo ≤ clip x lo hi :=
  le_min (le_max_right x lo) h

/-- Upper bound of clip: the clamped value never exceeds the upper
bound. -/
theorem clip_le_right (x lo hi : ℝ) : clip x lo hi ≤ hi :=
  min_le_right _ hi

/-- Clip of a nonpositive value into [0, 1] is 0. -/
theorem clip_nonpos_zero_one {x : ℝ} (h : x ≤ 0) : clip x 0 1 = 0 := by
  simp only [clip]
  rw [max_eq_right h, min_eq_left (by norm_num : (0 : ℝ) ≤ 1)]

end HelperLemmas

/-- Claim C2: for every pack state, get_pack_voltage() equals the sum of
the 16 values of get_cell_voltages() (fault-override value when set, the
cell's reading otherwise), and with 16 identical cells and no overrides
the pack voltage is exactly 16 times the single-cell voltage. -/
theorem claim_C2_pack_summation :
    (∀ p : BatteryPack16S.PackState,
      BatteryPack16S.get_pack_voltage p =
        ∑ i : Fin 16, BatteryPack16S.get_cell_voltages p i) ∧
    (∀ (p : BatteryPack16S.PackState) (c : LiFePO4Cell.CellState),
      (∀ i, p.cells i = c) → (∀ i, p.fault_voltages i = none) →
      BatteryPack16S.get_pack_voltage p =
        16 * LiFePO4Cell.get_state_voltage_mv c) := by
  constructor
  · intro p
    rfl
  · intro p c hc hov
    have hcell : ∀ i : Fin 16,
        BatteryPack16S.get_cell_voltages p i = LiFePO4Cell.get_state_voltage_mv c := by
      intro i
      simp [BatteryPack16S.get_cell_voltages, hov i, hc i]
    calc BatteryPack16S.get_pack_voltage p
        = ∑ _i : Fin 16, LiFePO4Cell.get_state_voltage_mv c :=
          Finset.sum_congr rfl fun i _ => hcell i
      _ = 16 * LiFePO4Cell.get_state_voltage_mv c := by
          rw [Finset.sum_const, Finset.card_univ, Fintype.card_fin, nsmul_eq_mul]
          norm_num

/-- Witness for claim C2 at a concrete pack of 16 identical cells. -/
theorem claim_C2_witness :
    BatteryPack16S.get_pack_voltage samplePack =
      16 * LiFePO4Cell.get_state_voltage_mv sampleCell :=
  claim_C2_pack_summation.2 samplePack sampleCell (fun _ => rfl) (fun _ => rfl)

/-- Claim C7: set_crc_error_rate(rate) fails (InvalidArgument-style
ValueError) exactly when the rate is outside [0, 1]; on success the
stored rate becomes the argument and every other field is unchanged; on
failure no state is produced, so the previously stored rate survives. -/
theorem claim_C7_crc_rate_validation :
    ∀ (s : AFEWrapper.AFEState) (r : ℚ),
      (¬(0 ≤ r ∧ r ≤ 1) →
        AFEWrapper.set_crc_error_rate s r =
          Except.error "CRC error rate must be between 0.0 and 1.0") ∧
      ((0 ≤ r ∧ r ≤ 1) →
        AFEWrapper.set_crc_error_rate s r =
          Except.ok { s with crc_error_rate := r }) := by
  intro s r
  constructor
  · intro h
    simp [AFEWrapper.set_crc_error_rate, h]
  · intro h
    simp [AFEWrapper.set_crc_error_rate, h]

/-- Witness for claim C7: rejection at rate 2, acceptance at rate 1/2. -/
theorem claim_C7_witness :
    AFEWrapper.set_crc_error_rate AFEWrapper.sampleAFE 2 =
      Except.error "CRC error rate must be between 0.0 and 1.0" ∧
    AFEWrapper.set_crc_error_rate AFEWrapper.sampleAFE (1 / 2) =
      Except.ok { AFEWrapper.sampleAFE with crc_error_rate := 1 / 2 } :=
  ⟨(claim_C7_crc_rate_validation AFEWrapper.sampleAFE 2).1 (by norm_num),
   (claim_C7_crc_rate_validation AFEWrapper.sampleAFE (1 / 2)).2 (by norm_num)⟩

/-- Claim C9: reset() clears all dynamic state (fault masks, stuck-ADC
stored values, current-sensor flag, CRC error rate, fault schedule,
status flags, measurement and CRC counters) and leaves every fixed
per-channel calibration value unchanged, for every wrapper state. -/
theorem claim_C9_reset_frame :
    ∀ s : AFEWrapper.AFEState,
      (AFEWrapper.reset s).open_wire_mask = 0 ∧
      (AFEWrapper.reset s).stuck_adc_mask = 0 ∧
      (AFEWrapper.reset s).stuck_adc_values = (fun _ => 0) ∧
      (AFEWrapper.reset s).ntc_fault_mask = 0 ∧
      (AFEWrapper.reset s).current_sensor_fault = false ∧
      (AFEWrapper.reset s).crc_error_rate = 0 ∧
      (AFEWrapper.reset s).fault_schedule = [] ∧
      (AFEWrapper.reset s).status_flags = 0 ∧
      (AFEWrapper.reset s).measurement_count = 0 ∧
      (AFEWrapper.reset s).crc_error_count = 0 ∧
      (AFEWrapper.reset s).start_time_ms = none ∧
      (AFEWrapper.reset s).voltage_gain_errors = s.voltage_gain_errors ∧
      (AFEWrapper.reset s).voltage_offsets_mv = s.voltage_offsets_mv ∧
      (AFEWrapper.reset s).temp_offsets_c = s.temp_offsets_c ∧
      (AFEWrapper.reset s).current_gain_error = s.current_gain_error ∧
      (AFEWrapper.reset s).current_offset_ma = s.current_offset_ma :=
  fun _ => ⟨rfl, rfl, rfl, rfl, rfl, rfl, rfl, rfl, rfl, rfl, rfl, rfl, rfl,
    rfl, rfl, rfl⟩

/-- Claim C10: with no voltage override on cell i, the pack's
get_cell_voltages()[i] is the cell's open-circuit voltage get_ocv() in
millivolts (the voltage_mv entry of get_state), and get_ocv does not
depend on the RC-branch voltages, so the ohmic and RC polarization drops
of the update step are absent from the pack voltage readings. -/
theorem claim_C10_pack_reads_ocv :
    (∀ (p : BatteryPack16S.PackState) (i : Fin 16),
      p.fault_voltages i = none →
      BatteryPack16S.get_cell_voltages p i =
        LiFePO4Cell.get_ocv (p.cells i) none none none * 1000) ∧
    (∀ (s : LiFePO4Cell.CellState) (v1 v2 : ℝ),
      LiFePO4Cell.get_ocv { s with v_rc1 := v1, v_rc2 := v2 } none none none =
        LiFePO4Cell.get_ocv s none none none) := by
  constructor
  · intro p i hov
    simp [BatteryPack16S.get_cell_voltages, hov, LiFePO4Cell.get_state_voltage_mv]
  · intro s v1 v2
    rfl

/-- Witness for claim C10 at a concrete pack with no overrides. -/
theorem claim_C10_witness :
    samplePack.fault_voltages 0 = none ∧
    BatteryPack16S.get_cell_voltages samplePack 0 =
      LiFePO4Cell.get_ocv (samplePack.cells 0) none none none * 1000 :=
  ⟨rfl, claim_C10_pack_reads_ocv.1 samplePack 0 rfl⟩

/-- A forced external temperature is stored verbatim by update, without
any clamping (cell_model.py line 562). -/
theorem update_forced_temperature (s : LiFePO4Cell.CellState)
    (cur dt t : ℝ) (amb : Option ℝ) :
    (LiFePO4Cell.update s cur dt (some t) amb).1.temperature_c = t := by
  simp only [LiFePO4Cell.update]
  split <;> rfl

/-- Without a forced temperature, the temperature after update is the one
produced by the thermal model. -/
theorem update_unforced_temperature (s : LiFePO4Cell.CellState)
    (cur dt : ℝ) (amb : Option ℝ) :
    (LiFePO4Cell.update s cur dt none amb).1.temperature_c =
      (LiFePO4Cell.update_thermal_model s cur dt amb).temperature_c := by
  simp only [LiFePO4Cell.update]
  split <;> rfl

/-- The thermal model always leaves the temperature clamped inside
[-40, 85] degrees C. -/
theorem update_thermal_model_temperature_mem (s : LiFePO4Cell.CellState)
    (cur dt : ℝ) (amb : Option ℝ) :
    -40 ≤ (LiFePO4Cell.update_thermal_model s cur dt amb).temperature_c ∧
    (LiFePO4Cell.update_thermal_model s cur dt amb).temperature_c ≤ 85 := by
  cases amb <;>
    exact ⟨le_clip (by norm_num), clip_le_right _ _ _⟩

/-- Counterexample to claim C5 as stated: updating a default cell with a
forced external temperature of 200 degrees C stores 200, outside
[-40, 85] - the forced-temperature path of update performs no clamping. -/
theorem claim_C5_counterexample :
    (LiFePO4Cell.update sampleCell 0 1000 (some 200) none).1.temperature_c = 200 ∧
    ¬((LiFePO4Cell.update sampleCell 0 1000 (some 200) none).1.temperature_c ≤ 85) := by
  constructor
  · exact update_forced_temperature sampleCell 0 1000 200 none
  · rw [update_forced_temperature]
    norm_num

/-- Claim C5, amended: after every update call without a forced external
temperature the stored temperature lies within [-40, 85] degrees C; a
call with a forced temperature stores that value verbatim, unclamped. -/
theorem claim_C5_temperature_clamp :
    (∀ (s : LiFePO4Cell.CellState) (cur dt : ℝ) (amb : Option ℝ),
      -40 ≤ (LiFePO4Cell.update s cur dt none amb).1.temperature_c ∧
      (LiFePO4Cell.update s cur dt none amb).1.temperature_c ≤ 85) ∧
    (∀ (s : LiFePO4Cell.CellState) (cur dt t : ℝ) (amb : Option ℝ),
      (LiFePO4Cell.update s cur dt (some t) amb).1.temperature_c = t) := by
  constructor
  · intro s cur dt amb
    rw [update_unforced_temperature]
    exact update_thermal_model_temperature_mem s cur dt amb
  · intro s cur dt t amb
    exact update_forced_temperature s cur dt t amb

/-- When the current falls in the dead zone (not above 0.001 mA and not
below -0.001 mA), update classifies the step as Resting and leaves the
hysteresis-tracking fields unchanged. -/
theorem update_direction_resting (s : LiFePO4Cell.CellState)
    (cur dt : ℝ) (tc amb : Option ℝ)
    (h1 : ¬(cur > 0.001)) (h2 : ¬(cur < -0.001)) :
    (LiFePO4Cell.update s cur dt tc amb).1.last_current_direction =
      s.last_current_direction ∧
    (LiFePO4Cell.update s cur dt tc amb).1.hysteresis_soc = s.hysteresis_soc := by
  have hd : (if cur > 0.001 then (1 : ℤ) else if cur < -0.001 then -1 else 0) = 0 := by
    rw [if_neg h1, if_neg h2]
  cases tc <;> cases amb <;>
    · simp only [LiFePO4Cell.update, hd, ne_eq, not_true_eq_false, false_and,
        if_false, ite_false]
      constructor <;> split <;> rfl

/-- Counterexample to claim C6 as stated: a current of 0.5 mA (magnitude
strictly below 1 mA) is classified as Charging, not Resting: the stored
direction moves from 0 to 1, because the dead-zone threshold in the code
is 0.001 mA, not 1 mA. -/
theorem claim_C6_counterexample :
    (LiFePO4Cell.update sampleCell 0.5 1000 (some 25) none).1.last_current_direction = 1 ∧
    sampleCell.last_current_direction = 0 := by
  constructor
  · have hd : (if (0.5 : ℝ) > 0.001 then (1 : ℤ)
        else if (0.5 : ℝ) < -0.001 then -1 else 0) = 1 := by norm_num
    simp only [LiFePO4Cell.update, hd, ne_eq, one_ne_zero, not_false_eq_true,
      true_and, if_true, ite_true]
    split <;> rfl
  · rfl

/-- Claim C6, amended: the resting dead zone of update is 0.001 mA (one
microampere): whenever the current magnitude is at most 0.001 mA the step
is classified Resting (direction 0) and both last_current_direction and
hysteresis_soc are left unchanged; they are touched only when the current
magnitude exceeds 0.001 mA. -/
theorem claim_C6_dead_zone :
    ∀ (s : LiFePO4Cell.CellState) (cur dt : ℝ) (tc amb : Option ℝ),
      |cur| ≤ 0.001 →
      (LiFePO4Cell.update s cur dt tc amb).1.last_current_direction =
        s.last_current_direction ∧
      (LiFePO4Cell.update s cur dt tc amb).1.hysteresis_soc = s.hysteresis_soc := by
  intro s cur dt tc amb h
  have hb := abs_le.mp h
  exact update_direction_resting s cur dt tc amb
    (by linarith [hb.2]) (by linarith [hb.1])

/-- Witness for the amended claim C6 at a 0.0005 mA current. -/
theorem claim_C6_witness :
    |(0.0005 : ℝ)| ≤ 0.001 ∧
    (LiFePO4Cell.update sampleCell 0.0005 1000 (some 25) none).1.last_current_direction =
      sampleCell.last_current_direction ∧
    (LiFePO4Cell.update sampleCell 0.0005 1000 (some 25) none).1.hysteresis_soc =
      sampleCell.hysteresis_soc := by
  have h := claim_C6_dead_zone sampleCell 0.0005 1000 (some 25) none (by
    rw [abs_of_nonneg (by norm_num : (0 : ℝ) ≤ 0.0005)]
    norm_num)
  exact ⟨by rw [abs_of_nonneg] <;> norm_num, h.1, h.2⟩

/-- The aging recomputation keeps the aged capacity at or above half the
nominal capacity and the cycle-aging resistance multiplier at or above
one, for any nonnegative nominal capacity. -/
theorem update_aging_bounds (s : LiFePO4Cell.CellState)
    (h0 : 0 ≤ s.capacity_nominal_ah) :
    0.5 * s.capacity_nominal_ah ≤ (LiFePO4Cell.update_aging s).capacity_actual_ah ∧
    1 ≤ (LiFePO4Cell.update_aging s).resistance_multiplier := by
  constructor
  · show 0.5 * s.capacity_nominal_ah ≤ s.capacity_nominal_ah * _
    rw [mul_comm]
    exact mul_le_mul_of_nonneg_left (le_max_right _ _) h0
  · show 1 ≤ 1 + LiFePO4Cell.RESISTANCE_INCREASE_RATE * ((max s.cycles 0 : ℤ) : ℝ)
    have hc : (0 : ℝ) ≤ ((max s.cycles 0 : ℤ) : ℝ) := by
      exact_mod_cast le_max_right s.cycles 0
    have : (0 : ℝ) ≤ LiFePO4Cell.RESISTANCE_INCREASE_RATE * ((max s.cycles 0 : ℤ) : ℝ) := by
      apply mul_nonneg _ hc
      norm_num [LiFePO4Cell.RESISTANCE_INCREASE_RATE]
    linarith

/-- Claim C8: the aging invariant (capacity_actual at least half of
nominal, resistance multiplier at least 1) holds after _update_aging and
after set_aging, for every cycle count and calendar-aging time, on the
domain where the Python power law is defined (storage SOC in [0, 1]) and
the nominal capacity is nonnegative. -/
theorem claim_C8_aging_invariant :
    ∀ (s : LiFePO4Cell.CellState) (cyc : ℤ) (hrs : Option ℝ),
      0 ≤ s.capacity_nominal_ah → 0 ≤ s.storage_soc → s.storage_soc ≤ 1 →
      (0.5 * s.capacity_nominal_ah ≤ (LiFePO4Cell.update_aging s).capacity_actual_ah ∧
       1 ≤ (LiFePO4Cell.update_aging s).resistance_multiplier) ∧
      (0.5 * s.capacity_nominal_ah ≤ (LiFePO4Cell.set_aging s cyc hrs).capacity_actual_ah ∧
       1 ≤ (LiFePO4Cell.set_aging s cyc hrs).resistance_multiplier) := by
  intro s cyc hrs h0 _ _
  refine ⟨update_aging_bounds s h0, ?_⟩
  simp only [LiFePO4Cell.set_aging]
  exact update_aging_bounds
    { s with
      cycles := max cyc 0
      calendar_aging_time_hours :=
        match hrs with
        | some hh => max hh 0
        | none => s.calendar_aging_time_hours } h0

/-- Witness for claim C8 at the concrete default cell with 500 cycles and
1000 hours of calendar aging. -/
theorem claim_C8_witness :
    0 ≤ sampleCell.capacity_nominal_ah ∧
    0 ≤ sampleCell.storage_soc ∧ sampleCell.storage_soc ≤ 1 ∧
    (0.5 * sampleCell.capacity_nominal_ah ≤
        (LiFePO4Cell.update_aging sampleCell).capacity_actual_ah ∧
      1 ≤ (LiFePO4Cell.update_aging sampleCell).resistance_multiplier) ∧
    (0.5 * sampleCell.capacity_nominal_ah ≤
        (LiFePO4Cell.set_aging sampleCell 500 (some 1000)).capacity_actual_ah ∧
      1 ≤ (LiFePO4Cell.set_aging sampleCell 500 (some 1000)).resistance_multiplier) := by
  have h1 : 0 ≤ sampleCell.capacity_nominal_ah := by
    show (0 : ℝ) ≤ 100
    norm_num
  have h2 : 0 ≤ sampleCell.storage_soc := by
    show (0 : ℝ) ≤ 0.5
    norm_num
  have h3 : sampleCell.storage_soc ≤ 1 := by
    show (0.5 : ℝ) ≤ 1
    norm_num
  obtain ⟨ha, hb⟩ := claim_C8_aging_invariant sampleCell 500 (some 1000) h1 h2 h3
  exact ⟨h1, h2, h3, ha, hb⟩

namespace AFEWrapper

/-- Bits of a fold that ors in 1 <<< f i for every listed channel i
satisfying P: bit k of the result is set exactly when it was set in the
initial value or some listed channel satisfies P with f i = k. -/
theorem testBit_foldl_orbit (l : List (Fin 16)) (P : Fin 16 → Prop)
    [DecidablePred P] (f : Fin 16 → ℕ) (a k : ℕ) :
    ((l.foldl (fun acc i => if P i then acc ||| (1 <<< f i) else acc) a).testBit k = true) ↔
      (a.testBit k = true ∨ ∃ i ∈ l, P i ∧ f i = k) := by
  induction l generalizing a with
  | nil => simp
  | cons j t ih =>
    rw [List.foldl_cons]
    by_cases hj : P j
    · rw [if_pos hj, ih]
      simp only [Nat.testBit_lor, Bool.or_eq_true, Nat.one_shiftLeft,
        Nat.testBit_two_pow, decide_eq_true_eq, List.mem_cons]
      constructor
      · rintro ((h | h) | ⟨i, hi, hPi, hfi⟩)
        · exact Or.inl h
        · exact Or.inr ⟨j, Or.inl rfl, hj, h⟩
        · exact Or.inr ⟨i, Or.inr hi, hPi, hfi⟩
      · rintro (h | ⟨i, (rfl | hi), hPi, hfi⟩)
        · exact Or.inl (Or.inl h)
        · exact Or.inl (Or.inr hfi)
        · exact Or.inr ⟨i, hi, hPi, hfi⟩
    · rw [if_neg hj, ih]
      simp only [List.mem_cons]
      constructor
      · rintro (h | ⟨i, hi, hPi, hfi⟩)
        · exact Or.inl h
        · exact Or.inr ⟨i, Or.inr hi, hPi, hfi⟩
      · rintro (h | ⟨i, (rfl | hi), hPi, hfi⟩)
        · exact Or.inl h
        · exact absurd hPi hj
        · exact Or.inr ⟨i, hi, hPi, hfi⟩

/-- The open-wire detection fold of _update_status_flags, bitwise. -/
theorem testBit_voltage_fold (v : Fin 16 → ℚ) (a k : ℕ) :
    (((List.finRange 16).foldl
        (fun acc i => if v i = INVALID_VOLTAGE_MV then acc ||| (1 <<< (i : ℕ)) else acc)
        a).testBit k = true) ↔
      (a.testBit k = true ∨ ∃ i : Fin 16, v i = INVALID_VOLTAGE_MV ∧ (i : ℕ) = k) := by
  refine (testBit_foldl_orbit (List.finRange 16)
    (fun i => v i = INVALID_VOLTAGE_MV) (fun i => (i : ℕ)) a k).trans ?_
  simp [List.mem_finRange]

/-- The NTC-fault detection fold of _update_status_flags, bitwise. -/
theorem testBit_temp_fold (t : Fin 16 → ℤ) (a k : ℕ) :
    (((List.finRange 16).foldl
        (fun acc i => if t i ≤ -32000 then acc ||| (1 <<< (16 + (i : ℕ))) else acc)
        a).testBit k = true) ↔
      (a.testBit k = true ∨ ∃ i : Fin 16, t i ≤ -32000 ∧ 16 + (i : ℕ) = k) := by
  refine (testBit_foldl_orbit (List.finRange 16)
    (fun i => t i ≤ -32000) (fun i => 16 + (i : ℕ)) a k).trans ?_
  simp [List.mem_finRange]

/-- Bit k of the status word rebuilt by _update_status_flags: set exactly
for an open-wire mask bit, an open-wire sentinel voltage (bits 0-15), a
temperature at or below -32000 centi-degrees (bits 16-31), or the
current-sensor condition (bit 30). -/
theorem update_status_flags_testBit (s : AFEState) (v : Fin 16 → ℚ)
    (t : Fin 16 → ℤ) (c : ℚ) (k : ℕ) :
    ((update_status_flags s v t c).status_flags.testBit k = true) ↔
      (s.open_wire_mask.testBit k = true ∨
       (∃ i : Fin 16, v i = INVALID_VOLTAGE_MV ∧ (i : ℕ) = k) ∨
       (∃ i : Fin 16, t i ≤ -32000 ∧ 16 + (i : ℕ) = k) ∨
       ((s.current_sensor_fault = true ∨ c = INVALID_CURRENT_MA) ∧ 30 = k)) := by
  simp only [update_status_flags]
  by_cases hc : s.current_sensor_fault = true ∨ c = INVALID_CURRENT_MA
  · rw [if_pos hc, Nat.testBit_lor, Bool.or_eq_true, testBit_temp_fold,
      testBit_voltage_fold, Nat.testBit_lor, Bool.or_eq_true]
    simp only [Nat.zero_testBit, Bool.false_eq_true, false_or, Nat.one_shiftLeft,
      Nat.testBit_two_pow, decide_eq_true_eq]
    constructor
    · rintro (((h | h) | h) | h)
      · exact Or.inl h
      · exact Or.inr (Or.inl h)
      · exact Or.inr (Or.inr (Or.inl h))
      · exact Or.inr (Or.inr (Or.inr ⟨hc, h⟩))
    · rintro (h | h | h | ⟨-, h⟩)
      · exact Or.inl (Or.inl (Or.inl h))
      · exact Or.inl (Or.inl (Or.inr h))
      · exact Or.inl (Or.inr h)
      · exact Or.inr h
  · rw [if_neg hc, testBit_temp_fold, testBit_voltage_fold, Nat.testBit_lor,
      Bool.or_eq_true]
    simp only [Nat.zero_testBit, Bool.false_eq_true, false_or]
    constructor
    · rintro ((h | h) | h)
      · exact Or.inl h
      · exact Or.inr (Or.inl h)
      · exact Or.inr (Or.inr (Or.inl h))
    · rintro (h | h | h | ⟨h30, -⟩)
      · exact Or.inl (Or.inl h)
      · exact Or.inl (Or.inr h)
      · exact Or.inr h
      · exact absurd h30 hc

/-- The schedule loop on an empty queue returns the state unchanged. -/
theorem process_schedule_nil (now : ℚ) (s : AFEState) (acc : List Event) :
    process_schedule now s [] acc = Except.ok (s, acc.reverse) := by
  rw [process_schedule]

/-- With no pending events, _update_fault_schedule leaves the wrapper
state unchanged. -/
theorem update_fault_schedule_nil (s : AFEState) (now : ℚ)
    (hs : s.fault_schedule = []) :
    update_fault_schedule s now = Except.ok s := by
  rw [update_fault_schedule, hs, process_schedule_nil]
  simp only [List.reverse_nil]
  rw [← hs]

/-- With an empty fault schedule, apply_measurement succeeds and returns
exactly the no-schedule measurement pipeline. -/
theorem apply_measurement_eq_of_schedule_nil (s : AFEState)
    (tv tt : Fin 16 → ℚ) (ti : ℚ) (vn tn : Fin 16 → ℚ) (cn cr nm : ℚ)
    (hs : s.fault_schedule = []) :
    apply_measurement s tv tt ti vn tn cn cr nm =
      Except.ok (measure_noschedule s tv tt ti vn tn cn cr) := by
  have h0 : ({ s with measurement_count := s.measurement_count + 1 } :
      AFEState).fault_schedule = [] := hs
  rw [apply_measurement, update_fault_schedule_nil _ nm h0]
  rfl

end AFEWrapper

namespace AFEWrapper

/-- An open-wire fault forces the measured voltage of the faulted channel
to the 0.0 mV sentinel (quantization and clipping leave 0 fixed). -/
theorem process_voltages_open (s : AFEState) (tv vn : Fin 16 → ℚ) (i : Fin 16)
    (h : s.open_wire_mask.testBit (i : ℕ) = true) :
    (process_voltages s tv vn).1 i = 0 := by
  simp only [process_voltages, h, if_true]
  norm_num [INVALID_VOLTAGE_MV, quantizeV, roundHalfEven, VOLTAGE_RESOLUTION_MV, clip]

/-- With neither an open-wire nor a stuck-ADC fault on channel i, the
measured voltage is the calibrated, noised, quantized, clipped value. -/
theorem process_voltages_normal (s : AFEState) (tv vn : Fin 16 → ℚ) (i : Fin 16)
    (h1 : s.open_wire_mask.testBit (i : ℕ) = false)
    (h2 : s.stuck_adc_mask.testBit (i : ℕ) = false) :
    (process_voltages s tv vn).1 i =
      clip (quantizeV (tv i * s.voltage_gain_errors i + s.voltage_offsets_mv i + vn i))
        0 6553.5 := by
  simp [process_voltages, h1, h2]

/-- Bit k (k not 31) of the status word returned by the no-schedule
measurement pipeline, characterized by the open-wire mask, the sentinel
voltages, the low temperatures and the current-sensor condition. -/
theorem measure_noschedule_status_testBit (s : AFEState)
    (tv tt : Fin 16 → ℚ) (ti : ℚ) (vn tn : Fin 16 → ℚ) (cn cr : ℚ)
    (k : ℕ) (hk : ¬(31 = k)) :
    ((measure_noschedule s tv tt ti vn tn cn cr).status.testBit k = true) ↔
      (s.open_wire_mask.testBit k = true ∨
       (∃ i : Fin 16,
         (measure_noschedule s tv tt ti vn tn cn cr).measured_voltages i =
           INVALID_VOLTAGE_MV ∧ (i : ℕ) = k) ∨
       (∃ i : Fin 16,
         (measure_noschedule s tv tt ti vn tn cn cr).measured_temps i ≤ -32000 ∧
           16 + (i : ℕ) = k) ∨
       ((s.current_sensor_fault = true ∨
         (measure_noschedule s tv tt ti vn tn cn cr).measured_current =
           INVALID_CURRENT_MA) ∧ 30 = k)) := by
  simp only [measure_noschedule]
  split
  · rw [Nat.testBit_lor]
    simp only [Nat.one_shiftLeft, Nat.testBit_two_pow, decide_eq_false hk,
      Bool.or_false]
    rw [update_status_flags_testBit]
  · rw [update_status_flags_testBit]

/-- Any of the status conditions forces the corresponding bit of the
returned status word, for every bit index. -/
theorem measure_noschedule_status_testBit_of (s : AFEState)
    (tv tt : Fin 16 → ℚ) (ti : ℚ) (vn tn : Fin 16 → ℚ) (cn cr : ℚ) (k : ℕ)
    (h : s.open_wire_mask.testBit k = true ∨
       (∃ i : Fin 16,
         (measure_noschedule s tv tt ti vn tn cn cr).measured_voltages i =
           INVALID_VOLTAGE_MV ∧ (i : ℕ) = k) ∨
       (∃ i : Fin 16,
         (measure_noschedule s tv tt ti vn tn cn cr).measured_temps i ≤ -32000 ∧
           16 + (i : ℕ) = k) ∨
       ((s.current_sensor_fault = true ∨
         (measure_noschedule s tv tt ti vn tn cn cr).measured_current =
           INVALID_CURRENT_MA) ∧ 30 = k)) :
    (measure_noschedule s tv tt ti vn tn cn cr).status.testBit k = true := by
  simp only [measure_noschedule] at h ⊢
  split
  · rw [Nat.testBit_lor, Bool.or_eq_true]
    exact Or.inl ((update_status_flags_testBit _ _ _ _ _).mpr h)
  · exact (update_status_flags_testBit _ _ _ _ _).mpr h

/-- Without an NTC fault on channel i, the measured temperature is the
calibrated, noised, quantized value converted to wrapped centi-degrees. -/
theorem process_temperatures_normal (s : AFEState) (tt tn : Fin 16 → ℚ) (i : Fin 16)
    (h : s.ntc_fault_mask.testBit (i : ℕ) = false) :
    process_temperatures s tt tn i =
      toInt16 (truncQ ((roundHalfEven ((tt i + s.temp_offsets_c i + tn i) /
        TEMPERATURE_RESOLUTION_C) : ℚ) * TEMPERATURE_RESOLUTION_C * 100)) := by
  simp [process_temperatures, h]

/-- Measured temperature of the full pipeline on a channel without an NTC
fault. -/
theorem measure_noschedule_measured_temps_normal (s : AFEState)
    (tv tt : Fin 16 → ℚ) (ti : ℚ) (vn tn : Fin 16 → ℚ) (cn cr : ℚ) (i : Fin 16)
    (h : s.ntc_fault_mask.testBit (i : ℕ) = false) :
    (measure_noschedule s tv tt ti vn tn cn cr).measured_temps i =
      toInt16 (truncQ ((roundHalfEven ((tt i + s.temp_offsets_c i + tn i) /
        TEMPERATURE_RESOLUTION_C) : ℚ) * TEMPERATURE_RESOLUTION_C * 100)) := by
  show process_temperatures _ tt tn i = _
  exact process_temperatures_normal _ tt tn i h

/-- Measured voltage of the full pipeline on an open-wire channel. -/
theorem measure_noschedule_measured_voltages_open (s : AFEState)
    (tv tt : Fin 16 → ℚ) (ti : ℚ) (vn tn : Fin 16 → ℚ) (cn cr : ℚ) (i : Fin 16)
    (h : s.open_wire_mask.testBit (i : ℕ) = true) :
    (measure_noschedule s tv tt ti vn tn cn cr).measured_voltages i = 0 := by
  show (process_voltages _ tv vn).1 i = 0
  exact process_voltages_open _ tv vn i h

/-- Measured voltage of the full pipeline on a channel without open-wire
or stuck-ADC faults. -/
theorem measure_noschedule_measured_voltages_normal (s : AFEState)
    (tv tt : Fin 16 → ℚ) (ti : ℚ) (vn tn : Fin 16 → ℚ) (cn cr : ℚ) (i : Fin 16)
    (h1 : s.open_wire_mask.testBit (i : ℕ) = false)
    (h2 : s.stuck_adc_mask.testBit (i : ℕ) = false) :
    (measure_noschedule s tv tt ti vn tn cn cr).measured_voltages i =
      clip (quantizeV (tv i * s.voltage_gain_errors i + s.voltage_offsets_mv i + vn i))
        0 6553.5 := by
  show (process_voltages _ tv vn).1 i = _
  exact process_voltages_normal _ tv vn i h1 h2

/-- The measurement pipeline does not modify the calibration values, the
fault masks, the current-sensor flag or the schedule of the wrapper
state. -/
theorem measure_noschedule_state_fields (s : AFEState)
    (tv tt : Fin 16 → ℚ) (ti : ℚ) (vn tn : Fin 16 → ℚ) (cn cr : ℚ) :
    (measure_noschedule s tv tt ti vn tn cn cr).state.voltage_gain_errors =
      s.voltage_gain_errors ∧
    (measure_noschedule s tv tt ti vn tn cn cr).state.voltage_offsets_mv =
      s.voltage_offsets_mv ∧
    (measure_noschedule s tv tt ti vn tn cn cr).state.open_wire_mask =
      s.open_wire_mask ∧
    (measure_noschedule s tv tt ti vn tn cn cr).state.stuck_adc_mask =
      s.stuck_adc_mask ∧
    (measure_noschedule s tv tt ti vn tn cn cr).state.ntc_fault_mask =
      s.ntc_fault_mask ∧
    (measure_noschedule s tv tt ti vn tn cn cr).state.current_sensor_fault =
      s.current_sensor_fault ∧
    (measure_noschedule s tv tt ti vn tn cn cr).state.fault_schedule =
      s.fault_schedule := by
  simp only [measure_noschedule]
  refine ⟨?_, ?_, ?_, ?_, ?_, ?_, ?_⟩ <;> (split <;> rfl)

end AFEWrapper

/-- Counterexample to claim C4 as stated: with an active current-sensor
fault and all temperatures at 25 C, bit 16+14 = 30 of the returned status
word is set although the measured temperature of cell 14 is 2500
centi-degrees, far above -32000 - the claimed equivalence fails for cell
14 (and similarly bit 31 can be set by CRC injection alone). -/
theorem claim_C4_counterexample :
    ∃ r, AFEWrapper.apply_measurement AFEWrapper.sampleAFEcs AFEWrapper.tv0
        AFEWrapper.tt0 1000 AFEWrapper.z16 AFEWrapper.z16 0 0 0 = Except.ok r ∧
      r.status.testBit (16 + 14) = true ∧
      ¬(r.measured_temps (14 : Fin 16) ≤ -32000) := by
  refine ⟨AFEWrapper.measure_noschedule AFEWrapper.sampleAFEcs AFEWrapper.tv0
      AFEWrapper.tt0 1000 AFEWrapper.z16 AFEWrapper.z16 0 0,
    AFEWrapper.apply_measurement_eq_of_schedule_nil _ _ _ _ _ _ _ _ _ rfl, ?_, ?_⟩
  · exact AFEWrapper.measure_noschedule_status_testBit_of _ _ _ _ _ _ _ _ _
      (Or.inr (Or.inr (Or.inr ⟨Or.inl rfl, by norm_num⟩)))
  · rw [AFEWrapper.measure_noschedule_measured_temps_normal _ _ _ _ _ _ _ _ _
      (by decide)]
    norm_num [AFEWrapper.toInt16, AFEWrapper.truncQ, AFEWrapper.roundHalfEven,
      AFEWrapper.TEMPERATURE_RESOLUTION_C, AFEWrapper.tt0, AFEWrapper.z16,
      AFEWrapper.sampleAFEcs, AFEWrapper.sampleAFE]

/-- Claim C4, amended: bit 16+c of the returned status word equals the
condition measured_t[c] at most -32000 centi-degrees for cells c = 0..13
(given an open-wire mask within its documented 16-bit range and no
pending schedule); for every cell, including c = 14 and c = 15, a low
measured temperature still forces the bit, but bits 30 and 31 are shared
with the current-sensor fault and the CRC error, which can set them
independently of the temperatures. -/
theorem claim_C4_ntc_status_bits :
    ∀ (s : AFEWrapper.AFEState) (tv tt : Fin 16 → ℚ) (ti : ℚ)
      (vn tn : Fin 16 → ℚ) (cn cr nm : ℚ) (r : AFEWrapper.MeasureResult),
      s.fault_schedule = [] → s.open_wire_mask < 65536 →
      AFEWrapper.apply_measurement s tv tt ti vn tn cn cr nm = Except.ok r →
      (∀ c : Fin 16, (c : ℕ) ≤ 13 →
        (r.status.testBit (16 + (c : ℕ)) = true ↔ r.measured_temps c ≤ -32000)) ∧
      (∀ c : Fin 16, r.measured_temps c ≤ -32000 →
        r.status.testBit (16 + (c : ℕ)) = true) := by
  intro s tv tt ti vn tn cn cr nm r hs hlt hok
  rw [AFEWrapper.apply_measurement_eq_of_schedule_nil s tv tt ti vn tn cn cr nm hs]
    at hok
  obtain rfl : r = AFEWrapper.measure_noschedule s tv tt ti vn tn cn cr :=
    (Except.ok.inj hok).symm
  constructor
  · intro c hc
    rw [AFEWrapper.measure_noschedule_status_testBit s tv tt ti vn tn cn cr
      (16 + (c : ℕ)) (by omega)]
    constructor
    · rintro (hopen | ⟨i, hvi, hik⟩ | ⟨i, hti, hik⟩ | ⟨-, h30⟩)
      · have hfalse : s.open_wire_mask.testBit (16 + (c : ℕ)) = false := by
          apply Nat.testBit_eq_false_of_lt
          calc s.open_wire_mask < 65536 := hlt
            _ = 2 ^ 16 := by norm_num
            _ ≤ 2 ^ (16 + (c : ℕ)) := Nat.pow_le_pow_right (by norm_num) (by omega)
        rw [hfalse] at hopen
        exact absurd hopen (by simp)
      · have := i.isLt
        omega
      · have hieq : i = c := Fin.ext (by omega)
        rw [hieq] at hti
        exact hti
      · omega
    · intro ht
      exact Or.inr (Or.inr (Or.inl ⟨c, ht, rfl⟩))
  · intro c ht
    exact AFEWrapper.measure_noschedule_status_testBit_of s tv tt ti vn tn cn cr _
      (Or.inr (Or.inr (Or.inl ⟨c, ht, rfl⟩)))

/-- Witness for the amended claim C4 at the concrete no-fault wrapper. -/
theorem claim_C4_witness :
    AFEWrapper.sampleAFE.fault_schedule = [] ∧
    AFEWrapper.sampleAFE.open_wire_mask < 65536 ∧
    ∃ r, AFEWrapper.apply_measurement AFEWrapper.sampleAFE AFEWrapper.tv0
        AFEWrapper.tt0 1000 AFEWrapper.z16 AFEWrapper.z16 0 0 0 = Except.ok r ∧
      (∀ c : Fin 16, (c : ℕ) ≤ 13 →
        (r.status.testBit (16 + (c : ℕ)) = true ↔ r.measured_temps c ≤ -32000)) := by
  refine ⟨rfl, by norm_num [AFEWrapper.sampleAFE], ?_⟩
  refine ⟨AFEWrapper.measure_noschedule AFEWrapper.sampleAFE AFEWrapper.tv0
      AFEWrapper.tt0 1000 AFEWrapper.z16 AFEWrapper.z16 0 0,
    AFEWrapper.apply_measurement_eq_of_schedule_nil _ _ _ _ _ _ _ _ _ rfl, ?_⟩
  exact (claim_C4_ntc_status_bits AFEWrapper.sampleAFE AFEWrapper.tv0 AFEWrapper.tt0
    1000 AFEWrapper.z16 AFEWrapper.z16 0 0 0 _ rfl
    (by norm_num [AFEWrapper.sampleAFE])
    (AFEWrapper.apply_measurement_eq_of_schedule_nil _ _ _ _ _ _ _ _ _ rfl)).1

/-- Claim C3: after inject_fault(OpenWire, 1<<5) on a wrapper with no
pending schedule, every measurement returns measured_v[5] = 0 with status
bit 5 set; after clear_fault(OpenWire, 1<<5) the measurement returns the
normally processed (calibrated, noised, quantized, clipped) voltage for
channel 5 and, whenever that value is not the 0.0 sentinel (always the
case for a real cell voltage), status bit 5 is clear - the round trip
restores no-fault behaviour.  Channel 5 is assumed free of stuck-ADC
faults so that the post-clear measurement is the normal one. -/
theorem claim_C3_openwire_roundtrip :
    ∀ (s : AFEWrapper.AFEState) (nowin : ℚ)
      (tv₁ tt₁ : Fin 16 → ℚ) (ti₁ : ℚ) (vn₁ tn₁ : Fin 16 → ℚ) (cn₁ cr₁ nm₁ : ℚ)
      (tv₂ tt₂ : Fin 16 → ℚ) (ti₂ : ℚ) (vn₂ tn₂ : Fin 16 → ℚ) (cn₂ cr₂ nm₂ : ℚ),
      s.fault_schedule = [] →
      s.stuck_adc_mask.testBit 5 = false →
      ∃ s₁, AFEWrapper.inject_fault s AFEWrapper.FaultType.open_wire
          (some (1 <<< 5)) none nowin = Except.ok s₁ ∧
        s₁.open_wire_mask.testBit 5 = true ∧
        ∃ r₁, AFEWrapper.apply_measurement s₁ tv₁ tt₁ ti₁ vn₁ tn₁ cn₁ cr₁ nm₁ =
            Except.ok r₁ ∧
          r₁.measured_voltages (5 : Fin 16) = 0 ∧
          r₁.status.testBit 5 = true ∧
          ∃ r₂, AFEWrapper.apply_measurement
              (AFEWrapper.clear_fault r₁.state AFEWrapper.FaultType.open_wire
                (some (1 <<< 5)))
              tv₂ tt₂ ti₂ vn₂ tn₂ cn₂ cr₂ nm₂ = Except.ok r₂ ∧
            r₂.measured_voltages (5 : Fin 16) =
              clip (AFEWrapper.quantizeV (tv₂ 5 * s.voltage_gain_errors 5 +
                s.voltage_offsets_mv 5 + vn₂ 5)) 0 6553.5 ∧
            (clip (AFEWrapper.quantizeV (tv₂ 5 * s.voltage_gain_errors 5 +
                s.voltage_offsets_mv 5 + vn₂ 5)) 0 6553.5 ≠ 0 →
              r₂.status.testBit 5 = false) := by
  intro s nowin tv₁ tt₁ ti₁ vn₁ tn₁ cn₁ cr₁ nm₁ tv₂ tt₂ ti₂ vn₂ tn₂ cn₂ cr₂ nm₂
    hs hstuck
  have hbit : ({ s with open_wire_mask := s.open_wire_mask ||| (1 <<< 5) } :
      AFEWrapper.AFEState).open_wire_mask.testBit 5 = true := by
    show (s.open_wire_mask ||| (1 <<< 5)).testBit 5 = true
    rw [Nat.testBit_lor, (by decide : Nat.testBit (1 <<< 5) 5 = true), Bool.or_true]
  refine ⟨{ s with open_wire_mask := s.open_wire_mask ||| (1 <<< 5) }, rfl, hbit, ?_⟩
  have hs₁ : ({ s with open_wire_mask := s.open_wire_mask ||| (1 <<< 5) } :
      AFEWrapper.AFEState).fault_schedule = [] := hs
  refine ⟨_, AFEWrapper.apply_measurement_eq_of_schedule_nil _ tv₁ tt₁ ti₁ vn₁ tn₁
    cn₁ cr₁ nm₁ hs₁,
    AFEWrapper.measure_noschedule_measured_voltages_open _ _ _ _ _ _ _ _ (5 : Fin 16) hbit,
    AFEWrapper.measure_noschedule_status_testBit_of _ _ _ _ _ _ _ _ 5 (Or.inl hbit), ?_⟩
  obtain ⟨hg, ho, how, hst, hntc, hcs, hsch⟩ :=
    AFEWrapper.measure_noschedule_state_fields
      { s with open_wire_mask := s.open_wire_mask ||| (1 <<< 5) }
      tv₁ tt₁ ti₁ vn₁ tn₁ cn₁ cr₁
  have h2sch : (AFEWrapper.clear_fault
      (AFEWrapper.measure_noschedule
        { s with open_wire_mask := s.open_wire_mask ||| (1 <<< 5) }
        tv₁ tt₁ ti₁ vn₁ tn₁ cn₁ cr₁).state
      AFEWrapper.FaultType.open_wire (some (1 <<< 5))).fault_schedule = [] := by
    show (AFEWrapper.measure_noschedule _ tv₁ tt₁ ti₁ vn₁ tn₁ cn₁ cr₁).state.fault_schedule = []
    rw [hsch]
    exact hs
  have h2open : (AFEWrapper.clear_fault
      (AFEWrapper.measure_noschedule
        { s with open_wire_mask := s.open_wire_mask ||| (1 <<< 5) }
        tv₁ tt₁ ti₁ vn₁ tn₁ cn₁ cr₁).state
      AFEWrapper.FaultType.open_wire (some (1 <<< 5))).open_wire_mask.testBit 5 = false := by
    show (Nat.ldiff _ (1 <<< 5)).testBit 5 = false
    rw [Nat.testBit_ldiff, (by decide : Nat.testBit (1 <<< 5) 5 = true)]
    simp
  have h2stuck : (AFEWrapper.clear_fault
      (AFEWrapper.measure_noschedule
        { s with open_wire_mask := s.open_wire_mask ||| (1 <<< 5) }
        tv₁ tt₁ ti₁ vn₁ tn₁ cn₁ cr₁).state
      AFEWrapper.FaultType.open_wire (some (1 <<< 5))).stuck_adc_mask.testBit 5 = false := by
    show (AFEWrapper.measure_noschedule _ tv₁ tt₁ ti₁ vn₁ tn₁ cn₁ cr₁).state.stuck_adc_mask.testBit 5 = false
    rw [hst]
    exact hstuck
  have hgg : (AFEWrapper.clear_fault
      (AFEWrapper.measure_noschedule
        { s with open_wire_mask := s.open_wire_mask ||| (1 <<< 5) }
        tv₁ tt₁ ti₁ vn₁ tn₁ cn₁ cr₁).state
      AFEWrapper.FaultType.open_wire (some (1 <<< 5))).voltage_gain_errors =
      s.voltage_gain_errors := hg
  have hoo : (AFEWrapper.clear_fault
      (AFEWrapper.measure_noschedule
        { s with open_wire_mask := s.open_wire_mask ||| (1 <<< 5) }
        tv₁ tt₁ ti₁ vn₁ tn₁ cn₁ cr₁).state
      AFEWrapper.FaultType.open_wire (some (1 <<< 5))).voltage_offsets_mv =
      s.voltage_offsets_mv := ho
  have hv5 := AFEWrapper.measure_noschedule_measured_voltages_normal _
    tv₂ tt₂ ti₂ vn₂ tn₂ cn₂ cr₂ (5 : Fin 16) h2open h2stuck
  rw [hgg, hoo] at hv5
  refine ⟨_, AFEWrapper.apply_measurement_eq_of_schedule_nil _ tv₂ tt₂ ti₂ vn₂ tn₂
    cn₂ cr₂ nm₂ h2sch, hv5, ?_⟩
  intro hnz
  have hnot : ¬((AFEWrapper.measure_noschedule
      (AFEWrapper.clear_fault
        (AFEWrapper.measure_noschedule
          { s with open_wire_mask := s.open_wire_mask ||| (1 <<< 5) }
          tv₁ tt₁ ti₁ vn₁ tn₁ cn₁ cr₁).state
        AFEWrapper.FaultType.open_wire (some (1 <<< 5)))
      tv₂ tt₂ ti₂ vn₂ tn₂ cn₂ cr₂).status.testBit 5 = true) := by
    intro hbit5
    rw [AFEWrapper.measure_noschedule_status_testBit _ _ _ _ _ _ _ _ 5 (by omega)]
      at hbit5
    rcases hbit5 with h | ⟨i, hvi, hik⟩ | ⟨i, hti, hik⟩ | ⟨-, h30⟩
    · rw [h2open] at h
      exact absurd h (by decide)
    · have hi5 : i = (5 : Fin 16) := Fin.ext (by rw [hik]; decide)
      rw [hi5, hv5,
        (by norm_num [AFEWrapper.INVALID_VOLTAGE_MV] :
          AFEWrapper.INVALID_VOLTAGE_MV = 0)] at hvi
      exact hnz hvi
    · have := i.isLt
      omega
    · omega
  simpa using hnot

/-- Witness for claim C3 at the concrete identity-calibration wrapper,
true voltages of 3300 mV and zero noise draws. -/
theorem claim_C3_witness :
    AFEWrapper.sampleAFE.fault_schedule = [] ∧
    AFEWrapper.sampleAFE.stuck_adc_mask.testBit 5 = false ∧
    (∃ s₁, AFEWrapper.inject_fault AFEWrapper.sampleAFE AFEWrapper.FaultType.open_wire
        (some (1 <<< 5)) none 0 = Except.ok s₁ ∧
      s₁.open_wire_mask.testBit 5 = true ∧
      ∃ r₁, AFEWrapper.apply_measurement s₁ AFEWrapper.tv0 AFEWrapper.tt0 1000
          AFEWrapper.z16 AFEWrapper.z16 0 0 0 = Except.ok r₁ ∧
        r₁.measured_voltages (5 : Fin 16) = 0 ∧
        r₁.status.testBit 5 = true ∧
        ∃ r₂, AFEWrapper.apply_measurement
            (AFEWrapper.clear_fault r₁.state AFEWrapper.FaultType.open_wire
              (some (1 <<< 5)))
            AFEWrapper.tv0 AFEWrapper.tt0 1000 AFEWrapper.z16 AFEWrapper.z16 0 0 0 =
            Except.ok r₂ ∧
          r₂.measured_voltages (5 : Fin 16) =
            clip (AFEWrapper.quantizeV (AFEWrapper.tv0 5 *
              AFEWrapper.sampleAFE.voltage_gain_errors 5 +
              AFEWrapper.sampleAFE.voltage_offsets_mv 5 + AFEWrapper.z16 5)) 0 6553.5 ∧
          (clip (AFEWrapper.quantizeV (AFEWrapper.tv0 5 *
              AFEWrapper.sampleAFE.voltage_gain_errors 5 +
              AFEWrapper.sampleAFE.voltage_offsets_mv 5 + AFEWrapper.z16 5)) 0 6553.5 ≠ 0 →
            r₂.status.testBit 5 = false)) :=
  ⟨rfl, by decide,
    claim_C3_openwire_roundtrip AFEWrapper.sampleAFE 0 AFEWrapper.tv0 AFEWrapper.tt0
      1000 AFEWrapper.z16 AFEWrapper.z16 0 0 0 AFEWrapper.tv0 AFEWrapper.tt0 1000
      AFEWrapper.z16 AFEWrapper.z16 0 0 0 rfl (by decide)⟩

/-- Interpolation at or below the first table point returns the first
y value. -/
theorem interp_cons_cons_left (x : ℝ) (p q : ℝ × ℝ) (rest : List (ℝ × ℝ))
    (h : x ≤ p.1) :
    interp x (p :: q :: rest) = p.2 := by
  simp only [interp]
  rw [if_pos h]

/-- The discharge OCV table interpolated at SOC fraction 0 gives the
first table entry, 2.862 V. -/
theorem interp_zero_discharge : interp 0 LiFePO4Cell.dischargePairs = 2.862 := by
  have h : LiFePO4Cell.dischargePairs =
      ((0 : ℝ) / 100, (2.862 : ℝ)) :: ((1 : ℝ) / 100, (2.912 : ℝ)) ::
        (LiFePO4Cell.OCV_SOC_TABLE_DISCHARGE.drop 2).map
          (fun p => (p.1 / 100, p.2)) := rfl
  rw [h, interp_cons_cons_left 0 _ _ _ (by norm_num)]

/-- get_ocv of a fully discharged cell under a discharging current uses
the discharge table at SOC 0 plus the temperature correction. -/
theorem get_ocv_discharge_zero (s : LiFePO4Cell.CellState) (h : s.soc = 0) :
    LiFePO4Cell.get_ocv s none none (some (-1)) =
      2.862 + LiFePO4Cell.OCV_TEMP_COEFF * (s.temperature_c - 25) := by
  simp only [LiFePO4Cell.get_ocv, Option.getD_some, Option.getD_none]
  rw [if_neg (by norm_num : ¬((-1 : ℤ) > 0)), if_pos (by norm_num : (-1 : ℤ) < 0),
    h, interp_zero_discharge]

/-- Internal resistance of a fully discharged cell: 1.4 times the 0.5
mOhm base at the temperature factor, times the two multipliers. -/
theorem get_internal_resistance_zero (s : LiFePO4Cell.CellState) (h : s.soc = 0) :
    LiFePO4Cell.get_internal_resistance s none none =
      0.5 * 1.4 * max (1 - 0.005 * (s.temperature_c - 25)) 0.5 *
        s.base_resistance_multiplier * s.resistance_multiplier := by
  simp only [LiFePO4Cell.get_internal_resistance, Option.getD_none]
  rw [h, if_pos (by norm_num : (0 : ℝ) ≤ 0.5)]
  norm_num

/-- The aging recompute of a zero-cycle cell of 100 Ah nominal capacity:
the aged capacity stays within [50, 100] Ah and the resistance
multiplier is exactly 1. -/
theorem update_aging_c1 (s3 : LiFePO4Cell.CellState)
    (hn : s3.capacity_nominal_ah = 100) (hc : s3.cycles = 0) :
    50 ≤ (LiFePO4Cell.update_aging s3).capacity_actual_ah ∧
    (LiFePO4Cell.update_aging s3).capacity_actual_ah ≤ 100 ∧
    (LiFePO4Cell.update_aging s3).resistance_multiplier = 1 := by
  have hfac : ∀ a h : ℝ, 0 ≤ a →
      ((if h > 0 then 1 - min (a * h) (0.3 : ℝ) else 1) ≤ 1 ∧
       (0 : ℝ) ≤ (if h > 0 then 1 - min (a * h) (0.3 : ℝ) else 1)) := by
    intro a h ha
    split
    · rename_i hp
      have h0 : 0 ≤ min (a * h) (0.3 : ℝ) := le_min (mul_nonneg ha hp.le) (by norm_num)
      have h3 : min (a * h) (0.3 : ℝ) ≤ 0.3 := min_le_right _ _
      constructor <;> linarith
    · norm_num
  simp only [LiFePO4Cell.update_aging]
  rw [hn, hc]
  simp only [max_self, Int.cast_zero, Real.sqrt_zero, mul_zero, sub_zero]
  have hcf : (1 : ℝ) ⊔ 0.5 = 1 := max_eq_left (by norm_num)
  rw [hcf]
  obtain ⟨hle, hge⟩ := hfac (LiFePO4Cell.CALENDAR_AGING_BASE_RATE *
      Real.exp (-LiFePO4Cell.CALENDAR_AGING_ACTIVATION_ENERGY /
        (LiFePO4Cell.GAS_CONSTANT * (s3.storage_temp + 273.15))) *
      ((Real.sqrt s3.storage_soc + Real.sqrt (1 - s3.storage_soc)) / 2))
      s3.calendar_aging_time_hours (by
        have hb : (0 : ℝ) ≤ LiFePO4Cell.CALENDAR_AGING_BASE_RATE := by
          norm_num [LiFePO4Cell.CALENDAR_AGING_BASE_RATE]
        have he := (Real.exp_pos (-LiFePO4Cell.CALENDAR_AGING_ACTIVATION_ENERGY /
          (LiFePO4Cell.GAS_CONSTANT * (s3.storage_temp + 273.15)))).le
        have h1 := Real.sqrt_nonneg s3.storage_soc
        have h2 := Real.sqrt_nonneg (1 - s3.storage_soc)
        have hs : (0 : ℝ) ≤
            (Real.sqrt s3.storage_soc + Real.sqrt (1 - s3.storage_soc)) / 2 := by
          linarith
        exact mul_nonneg (mul_nonneg hb he) hs)
  refine ⟨?_, ?_, by norm_num [LiFePO4Cell.RESISTANCE_INCREASE_RATE]⟩
  · calc (50 : ℝ) = 100 * 0.5 := by norm_num
      _ ≤ _ := mul_le_mul_of_nonneg_left (le_max_right _ _) (by norm_num)
  · calc 100 * ((1 * (if s3.calendar_aging_time_hours > 0 then
          1 - min (LiFePO4Cell.CALENDAR_AGING_BASE_RATE *
            Real.exp (-LiFePO4Cell.CALENDAR_AGING_ACTIVATION_ENERGY /
              (LiFePO4Cell.GAS_CONSTANT * (s3.storage_temp + 273.15))) *
            ((Real.sqrt s3.storage_soc + Real.sqrt (1 - s3.storage_soc)) / 2) *
            s3.calendar_aging_time_hours) 0.3
        else 1)) ⊔ 0.5)
        ≤ 100 * 1 := by
          apply mul_le_mul_of_nonneg_left _ (by norm_num)
          apply max_le _ (by norm_num)
          rw [one_mul]
          exact hle
      _ = 100 := by norm_num

/-- Terminal-voltage floor for a fully discharged default cell under a
1000 A discharge: the OCV minus the ohmic and RC drops is below 2.5 V for
any temperature in [25, 85], so the 2.5 V floor is hit exactly. -/
theorem c1_voltage (w : LiFePO4Cell.CellState) (hw0 : w.soc = 0)
    (hw1 : 25 ≤ w.temperature_c) (hw2 : w.temperature_c ≤ 85)
    (hwb : w.base_resistance_multiplier = 1) (hwr : w.resistance_multiplier = 1)
    (A B : ℝ) :
    max (LiFePO4Cell.get_ocv w none none (some (-1)) -
      |(-1000000 : ℝ) / 1000| * (LiFePO4Cell.get_internal_resistance w none none / 1000) -
      |A| - |B|) 2.5 = 2.5 := by
  rw [get_ocv_discharge_zero w hw0, get_internal_resistance_zero w hw0, hwb, hwr]
  have habs : |(-1000000 : ℝ) / 1000| = 1000 := by
    rw [abs_of_nonpos (by norm_num)]
    norm_num
  rw [habs]
  have hmax : max (1 - 0.005 * (w.temperature_c - 25)) 0.5 =
      1 - 0.005 * (w.temperature_c - 25) := max_eq_left (by linarith)
  rw [hmax]
  apply max_eq_right
  have h1 := abs_nonneg A
  have h2 := abs_nonneg B
  norm_num [LiFePO4Cell.OCV_TEMP_COEFF]
  nlinarith [hw1, hw2, h1, h2]

/-- Claim C1: driving a fully discharged default cell (the C1Inv states)
with a -1,000,000 mA discharge current leaves the SOC exactly 0, returns
a terminal voltage of exactly 2500 mV (the 2.5 V floor), and preserves
the invariant, for every positive time step - hence for every update
call of a 10 s (or any) drive at that current. -/
theorem claim_C1_soc_clamp :
    ∀ s : LiFePO4Cell.CellState, C1Inv s → ∀ dt : ℝ, 0 < dt →
      C1Inv (LiFePO4Cell.update s (-1000000) dt none none).1 ∧
      (LiFePO4Cell.update s (-1000000) dt none none).2.1 = 2500 ∧
      (LiFePO4Cell.update s (-1000000) dt none none).2.2 = 0 := by
  intro s hInv dt hdt
  obtain ⟨hnom, hsoc, hT1, hT2, hamb, hcyc, hbase, hrm, hcapl, hcapu, hss1, hss2⟩ := hInv
  have hr0 : LiFePO4Cell.get_internal_resistance s none none =
      0.5 * 1.4 * max (1 - 0.005 * (s.temperature_c - 25)) 0.5 := by
    rw [get_internal_resistance_zero s hsoc, hbase, hrm]
    ring
  have hTeq : (LiFePO4Cell.update_thermal_model s (-1000000) dt none).temperature_c =
      clip (s.temperature_c + (((-1000000 : ℝ) / 1000) ^ 2 *
        (LiFePO4Cell.get_internal_resistance s none none / 1000) -
        (s.temperature_c - s.ambient_temp_c) / LiFePO4Cell.THERMAL_RESISTANCE) *
        (dt / 1000) / LiFePO4Cell.THERMAL_MASS) (-40) 85 := rfl
  have hThi : (LiFePO4Cell.update_thermal_model s (-1000000) dt none).temperature_c ≤ 85 := by
    rw [hTeq]
    exact clip_le_right _ _ _
  have hTlo : 25 ≤ (LiFePO4Cell.update_thermal_model s (-1000000) dt none).temperature_c := by
    rw [hTeq]
    have htf : (0.5 : ℝ) ≤ max (1 - 0.005 * (s.temperature_c - 25)) 0.5 :=
      le_max_right _ _
    have hnet : (0 : ℝ) ≤ ((-1000000 : ℝ) / 1000) ^ 2 *
        (LiFePO4Cell.get_internal_resistance s none none / 1000) -
        (s.temperature_c - s.ambient_temp_c) / LiFePO4Cell.THERMAL_RESISTANCE := by
      rw [hr0, hamb]
      norm_num [LiFePO4Cell.THERMAL_RESISTANCE]
      nlinarith [htf, hT2]
    have hdtemp : (0 : ℝ) ≤ (((-1000000 : ℝ) / 1000) ^ 2 *
        (LiFePO4Cell.get_internal_resistance s none none / 1000) -
        (s.temperature_c - s.ambient_temp_c) / LiFePO4Cell.THERMAL_RESISTANCE) *
        (dt / 1000) / LiFePO4Cell.THERMAL_MASS := by
      apply div_nonneg (mul_nonneg hnet (by positivity))
      norm_num [LiFePO4Cell.THERMAL_MASS]
    apply le_min
    · exact le_trans (by linarith) (le_max_left _ _)
    · norm_num
  have habs : ¬(|(-1000000 : ℝ)| < 0.001) := by
    rw [abs_of_nonpos (by norm_num : (-1000000 : ℝ) ≤ 0)]
    norm_num
  have hndir : (if (-1000000 : ℝ) > 0.001 then (1 : ℤ)
      else if (-1000000 : ℝ) < -0.001 then -1 else 0) = -1 := by norm_num
  simp only [LiFePO4Cell.update, hndir, if_neg habs]
  set u := LiFePO4Cell.update_thermal_model s (-1000000) dt none with hu
  have hTlo' : (25 : ℝ) ≤ u.temperature_c := hTlo
  have hThi' : u.temperature_c ≤ 85 := hThi
  have husoc : u.soc = 0 := hsoc
  have hucap1 : (50 : ℝ) ≤ u.capacity_actual_ah := hcapl
  have hucap_pos : (0 : ℝ) < u.capacity_actual_ah *
      (1 + LiFePO4Cell.CAPACITY_TEMP_COEFF * (u.temperature_c - 25)) := by
    apply mul_pos (by linarith)
    norm_num [LiFePO4Cell.CAPACITY_TEMP_COEFF]
    nlinarith [hTlo']
  have hsoc2 : clip (u.soc + (-1000000 : ℝ) / 1000 * (dt / (1000 * 3600)) /
      (u.capacity_actual_ah *
        (1 + LiFePO4Cell.CAPACITY_TEMP_COEFF * (u.temperature_c - 25)))) 0 1 = 0 := by
    apply clip_nonpos_zero_one
    rw [husoc, zero_add]
    apply div_nonpos_iff.mpr
    exact Or.inr ⟨by nlinarith [show (0 : ℝ) < dt / (1000 * 3600) from by positivity],
      le_of_lt hucap_pos⟩
  rw [hsoc2]
  refine ⟨?_, ?_, by norm_num⟩
  · split
    · exact ⟨hnom, rfl, hTlo', hThi', hamb, hcyc, hbase,
        (update_aging_c1 _ (by exact hnom) (by exact hcyc)).2.2,
        (update_aging_c1 _ (by exact hnom) (by exact hcyc)).1,
        (update_aging_c1 _ (by exact hnom) (by exact hcyc)).2.1, hss1, hss2⟩
    · exact ⟨hnom, rfl, hTlo', hThi', hamb, hcyc, hbase, hrm, hcapl, hcapu,
        hss1, hss2⟩
  · rw [c1_voltage _ (by rfl) (by exact hTlo') (by exact hThi') (by exact hbase)
      (by exact hrm) _ _]
    norm_num

/-- Witness for claim C1: the freshly constructed discharged default cell
satisfies the invariant, and one concrete 625 ms step at -1,000,000 mA
(16 such steps make the 10 s drive) keeps SOC at 0 and returns exactly
2500 mV. -/
theorem claim_C1_witness :
    C1Inv dischargedCell ∧ (0 : ℝ) < 625 ∧
    (C1Inv (LiFePO4Cell.update dischargedCell (-1000000) 625 none none).1 ∧
     (LiFePO4Cell.update dischargedCell (-1000000) 625 none none).2.1 = 2500 ∧
     (LiFePO4Cell.update dischargedCell (-1000000) 625 none none).2.2 = 0) := by
  have hInv : C1Inv dischargedCell := by
    refine ⟨rfl, ?_, ?_, ?_, rfl, rfl, ?_, ?_, ?_, ?_, ?_, ?_⟩
    · exact clip_nonpos_zero_one le_rfl
    · exact le_refl 25
    · show (25 : ℝ) ≤ 85
      norm_num
    · show max (1 : ℝ) 0.1 = 1
      exact max_eq_left (by norm_num)
    · exact (update_aging_c1 _ (by rfl) (by rfl)).2.2
    · exact (update_aging_c1 _ (by rfl) (by rfl)).1
    · exact (update_aging_c1 _ (by rfl) (by rfl)).2.1
    · exact le_refl 0
    · show (0 : ℝ) ≤ 1
      norm_num
  exact ⟨hInv, by norm_num, claim_C1_soc_clamp dischargedCell hInv 625 (by norm_num)⟩
